import Mathlib

namespace IGBot

/-!
# Verification of the IGBOT scheduling core

Shallow embedding of the slot-planning / assignment / hashtag-rotation /
dispatch core of the IGBOT repository (`src/db.py`, `src/main.py`,
`src/scheduler/scheduler.py`, `src/publisher/instagram_client.py`).

SQLite rows become Lean structures, tables become lists of rows, SQL updates
become list maps, and Python exceptions become `Except String` values.
Timestamps (ISO-8601 UTC strings in the source, compared lexicographically,
which agrees with chronological order) are modelled as integers (minutes).
-/

deriving instance DecidableEq for Except

/-- Python truthiness of an optional integer id (`None` and `0` are falsy). -/
def optTruthy : Option Nat → Bool
  | none => false
  | some n => n != 0

/-! ## Data model (tables from `db.init_db`) -/

/-- A row of the `memes` table (content units). -/
structure Meme where
  mid : Nat
  source : String
  source_id : String
  title : String
  image_url : String
  caption : Option String := none
  hashtags : Option String := none
  status : String := "new"
  error : Option String := none
deriving Repr, DecidableEq

/-- A row of the `captions` table (caption variants). -/
structure CaptionVariant where
  meme_id : Nat
  variant_no : Nat
  caption_text : String
  hashtags : Option String
  active : Bool := true
deriving Repr, DecidableEq

/-- A row of the `schedules` table (Slots). -/
structure Schedule where
  sid : Nat
  kind : String
  meme_id : Option Nat := none
  story_id : Option Nat := none
  carousel_id : Option Nat := none
  caption_variant_no : Option Nat := none
  planned_time_utc : Int
  jitter_sec : Int := 0
  scheduled_time_utc : Int
  status : String := "queued"
  priority : Int := 0
  error : Option String := none
deriving Repr, DecidableEq

/-- A row of the `posts` table (append-only audit of dispatch attempts). -/
structure Post where
  schedule_id : Nat
  platform_post_id : Option String
  posted_at_utc : Option Int
  status : String
  error : Option String
deriving Repr, DecidableEq

/-- A row of the `carousels` table. -/
structure Carousel where
  cid : Nat
  caption : String
deriving Repr, DecidableEq

/-- A row of the `carousel_items` table. -/
structure CarouselItem where
  carousel_id : Nat
  image_url : String
  position : Nat
deriving Repr, DecidableEq

/-- A row of the `hashtag_pools` table. -/
structure HashtagPool where
  name : String
  tags_csv : String
  active : Bool := true
deriving Repr, DecidableEq

/-- The whole SQLite database. -/
structure DB where
  memes : List Meme := []
  captions : List CaptionVariant := []
  schedules : List Schedule := []
  posts : List Post := []
  carousels : List Carousel := []
  carousel_items : List CarouselItem := []
  hashtag_pools : List HashtagPool := []
deriving Repr, DecidableEq

/-! ## Hashtag pools and rotation (`db.get_hashtag_pool`, `main._rotate_hashtags`) -/

/-- `db.get_hashtag_pool`: csv of the named pool if present and active. -/
def get_hashtag_pool (pools : List HashtagPool) (name : String) : Option String :=
  (pools.find? (fun p => p.name == name && p.active)).map (·.tags_csv)

/-- Python whitespace as removed by `str.strip()`. -/
def isPySpace (c : Char) : Bool :=
  c = ' ' || c = '\t' || c = '\n' || c = '\r' || c = '\x0b' || c = '\x0c'

/-- Python `str.strip()`. -/
def pyStrip (s : String) : String :=
  String.mk (((s.toList.dropWhile isPySpace).reverse.dropWhile isPySpace).reverse)

/-- Helper for `str.split(",")`: accumulate the current (reversed) field. -/
def splitCommaAux : List Char → List Char → List String
  | [], acc => [String.mk acc.reverse]
  | c :: cs, acc =>
    if c = ',' then String.mk acc.reverse :: splitCommaAux cs []
    else splitCommaAux cs (c :: acc)

/-- Python `csv.split(",")` (note `"".split(",") == [""]`). -/
def splitComma (s : String) : List String :=
  splitCommaAux s.toList []

/-- `[t.strip() for t in csv.split(",") if t.strip()]` -/
def splitTags (csv : String) : List String :=
  ((splitComma csv).map pyStrip).filter (fun t => t ≠ "")

/-- The seen-set de-duplication loop of `_rotate_hashtags` (exact string
comparison, first occurrence kept). -/
def dedupSeen : List String → List String → List String
  | [], _ => []
  | t :: ts, seen => if t ∈ seen then dedupSeen ts seen else t :: dedupSeen ts (t :: seen)

/-- The body of the pool loop in `main._rotate_hashtags` for pool index `i`
and pool `name` (an empty/missing pool hits the `continue`, contributing
nothing). -/
def rotatePoolPick (getPool : String → Option String) (schedule_id : Nat)
    (i : Nat) (name : String) : List String :=
  let csv := (getPool name).getD ""
  let tags := splitTags csv
  if tags = [] then []
  else
    let offset := (schedule_id + i * 3) % tags.length
    let rotated := tags.drop offset ++ tags.take offset
    rotated.take (if name ≠ "regional" then 8 else 5)

/-- `main._rotate_hashtags`, with the pool lookup abstracted as a function
(`db.get_hashtag_pool` partially applied in practice). -/
def rotate_hashtags (getPool : String → Option String) (schedule_id : Nat) : String :=
  let pools := ["trending", "evergreen", "niche", "regional"]
  let picks := (pools.enum.map
    (fun p => rotatePoolPick getPool schedule_id p.1 p.2)).flatten
  let unique := dedupSeen picks []
  String.intercalate " " ((unique.take 25).map (fun t => "#" ++ t))

/-! ### Spec-worded rotator (for claim C4)

`rotate_hashtags_claim` follows the sentence of the spec word for word,
including its "deduplicate case-insensitively" step; `rotate_hashtags_exact`
is the same pipeline with exact-match de-duplication. -/

/-- Rotate a list left by `k`. -/
def rotateLeft (l : List String) (k : Nat) : List String :=
  l.drop k ++ l.take k

/-- Per-pool kept prefix length: 8 tags, 5 for `regional`. -/
def poolLimit (name : String) : Nat :=
  if name = "regional" then 5 else 8

/-- First-seen-order de-duplication by exact string match. -/
def dedupFirst : List String → List String
  | [] => []
  | t :: ts => t :: dedupFirst (ts.filter (fun x => x ≠ t))
termination_by l => l.length
decreasing_by
  simp only [List.length_cons]
  exact Nat.lt_succ_of_le (List.length_filter_le _ _)

/-- Character-wise lower-casing of a string. -/
def lowerStr (s : String) : String :=
  String.mk (s.toList.map Char.toLower)

/-- First-seen-order de-duplication comparing strings case-insensitively
(seen-set of lower-cased keys). -/
def dedupSeenCI : List String → List String → List String
  | [], _ => []
  | t :: ts, seen =>
    if lowerStr t ∈ seen then dedupSeenCI ts seen
    else t :: dedupSeenCI ts (lowerStr t :: seen)

/-- First-seen-order, case-insensitive de-duplication. -/
def dedupFirstCI (l : List String) : List String :=
  dedupSeenCI l []

/-- The contribution of one pool: its active tag list rotated left by
`(schedule_id + 3 * pool_index) mod n`, first `poolLimit` tags kept;
missing or empty pools contribute nothing. -/
def poolContribution (getPool : String → Option String) (schedule_id : Nat)
    (i : Nat) (name : String) : List String :=
  match getPool name with
  | none => []
  | some csv =>
    let tags := splitTags csv
    if tags.isEmpty then []
    else (rotateLeft tags ((schedule_id + 3 * i) % tags.length)).take (poolLimit name)

/-- The hashtag rotation exactly as the spec sentence describes it,
including its case-insensitive de-duplication step. -/
def rotate_hashtags_claim (getPool : String → Option String) (schedule_id : Nat) : String :=
  let contributions :=
    poolContribution getPool schedule_id 0 "trending" ++
    poolContribution getPool schedule_id 1 "evergreen" ++
    poolContribution getPool schedule_id 2 "niche" ++
    poolContribution getPool schedule_id 3 "regional"
  String.intercalate " " (((dedupFirstCI contributions).take 25).map (fun t => "#" ++ t))

/-- The spec pipeline with the de-duplication step done by exact string
match instead of case-insensitively. -/
def rotate_hashtags_exact (getPool : String → Option String) (schedule_id : Nat) : String :=
  let contributions :=
    poolContribution getPool schedule_id 0 "trending" ++
    poolContribution getPool schedule_id 1 "evergreen" ++
    poolContribution getPool schedule_id 2 "niche" ++
    poolContribution getPool schedule_id 3 "regional"
  String.intercalate " " (((dedupFirst contributions).take 25).map (fun t => "#" ++ t))

/-- A pool table with an upper-case tag in `trending` and its lower-case
twin in `evergreen`. -/
def caseClashPools : String → Option String
  | "trending" => some "A"
  | "evergreen" => some "a"
  | _ => none

/-- A pool table with only the `trending` pool, as in the spec's example. -/
def trendingOnlyPools : String → Option String
  | "trending" => some "a,b,c,d,e,f,g,h,i,j"
  | _ => none

/-! ## Content ingestion (`db.create_meme_returning_id`, claim C7) -/

/-- Does a meme row carry the given `(source, source_id)` pair (the unique
index `idx_memes_source_sourceid`)? -/
def memeKeyIs (source source_id : String) (r : Meme) : Bool :=
  r.source == source && r.source_id == source_id

/-- `db.create_meme_returning_id`: try the INSERT; the branch returning an
existing row models the `sqlite3.IntegrityError` handler, which fires
exactly when a row with the same `(source, source_id)` already exists
(unique index `idx_memes_source_sourceid`) and then SELECTs that row's id.
`next_id` stands for sqlite's AUTOINCREMENT counter. -/
def create_meme_returning_id (memes : List Meme) (next_id : Nat)
    (source source_id title image_url : String) : List Meme × Nat :=
  match memes.find? (memeKeyIs source source_id) with
  | some r => (memes, r.mid)
  | none =>
    (memes ++ [{ mid := next_id, source := source, source_id := source_id,
                 title := title, image_url := image_url }], next_id)

/-! ## Carousel creation (`db.create_carousel_from_urls`,
`db.create_carousel_from_memes`, claim C9) -/

/-- The carousel tables plus sqlite's AUTOINCREMENT counter. -/
structure CarStore where
  carousels : List Carousel := []
  items : List CarouselItem := []
  next_id : Nat := 1
deriving Repr, DecidableEq

/-- `db.get_meme`'s `image_url` column for a meme id. -/
def memeUrl (memes : List Meme) (mid : Nat) : Option String :=
  (memes.find? (fun r => r.mid == mid)).map (·.image_url)

/-- `db.create_carousel_from_urls`. The pair's second component is the
Python return/raise: `.error` models the raised exception. The store is
returned in both cases, because the `ValueError` is raised before any
insert (store unchanged). -/
def create_carousel_from_urls (st : CarStore) (image_urls : List String)
    (caption : Option String) : CarStore × Except String Nat :=
  let urls := image_urls.filter (fun u => u ≠ "")
  if urls.length < 2 then (st, .error "Carousel requires at least 2 images")
  else
    let urls10 := urls.take 10
    let cid := st.next_id
    ({ carousels := st.carousels ++ [{ cid := cid, caption := caption.getD "" }],
       items := st.items ++ urls10.enum.map
         (fun p => { carousel_id := cid, image_url := p.2, position := p.1 + 1 }),
       next_id := st.next_id + 1 }, .ok cid)

/-- The URLs `create_carousel_from_memes` keeps: each id's `image_url` when
the row exists and the url is non-empty (`if not row or not row[0]: continue`). -/
def resolveMemeUrls (memes : List Meme) (meme_ids : List Nat) : List String :=
  meme_ids.filterMap (fun mid =>
    match memeUrl memes mid with
    | none => none
    | some u => if u = "" then none else some u)

/-- `db.create_carousel_from_memes`. `len(meme_ids) < 2` raises before any
insert; otherwise the carousel row and all resolvable items are inserted
and committed, and only afterwards `pos < 2` raises — so that error leaves
the rows persisted. No truncation to 10 happens on this path. -/
def create_carousel_from_memes (memes : List Meme) (st : CarStore)
    (meme_ids : List Nat) (caption : Option String) : CarStore × Except String Nat :=
  if meme_ids.length < 2 then (st, .error "Carousel requires at least 2 meme ids")
  else
    let urls := resolveMemeUrls memes meme_ids
    let cid := st.next_id
    let st' : CarStore :=
      { carousels := st.carousels ++ [{ cid := cid, caption := caption.getD "" }],
        items := st.items ++ urls.enum.map
          (fun p => { carousel_id := cid, image_url := p.2, position := p.1 + 1 }),
        next_id := st.next_id + 1 }
    if urls.length < 2 then (st', .error "Not enough valid images to build carousel")
    else (st', .ok cid)

/-- Eleven meme rows, ids 1 to 11, each with a non-empty image url. -/
def elevenMemes : List Meme :=
  (List.range 11).map (fun i =>
    { mid := i + 1, source := "s", source_id := "x", title := "t", image_url := "u" })

/-! ## Schedule creation and the uniqueness guard (`db.create_schedule`,
the `UNIQUE(kind, meme_id, scheduled_time_utc)` table constraint, claim C3) -/

/-- Does inserting `(kind, meme_id, sched)` violate the table constraint
`UNIQUE(kind, meme_id, scheduled_time_utc)`? SQLite semantics: rows whose
`meme_id` is NULL never conflict (NULLs are distinct in UNIQUE constraints),
and `story_id`/`carousel_id` are not part of any uniqueness constraint. -/
def scheduleConflict (rows : List Schedule) (kind : String) (meme_id : Option Nat)
    (sched : Int) : Bool :=
  match meme_id with
  | none => false
  | some m => rows.any (fun r =>
      r.kind == kind && r.meme_id == some m && r.scheduled_time_utc == sched)

/-- `db.create_schedule` (and `create_schedule_returning_id`, same INSERT):
a constraint violation raises `sqlite3.IntegrityError` to the caller,
modelled as `.error`; otherwise the row is inserted with status `queued`.
`next_sid` stands for sqlite's AUTOINCREMENT counter. -/
def create_schedule (rows : List Schedule) (next_sid : Nat) (kind : String)
    (planned_time_utc : Int) (jitter_sec : Int) (scheduled_time_utc : Int)
    (meme_id story_id caption_variant_no : Option Nat) (priority : Int) :
    Except String (List Schedule × Nat) :=
  if scheduleConflict rows kind meme_id scheduled_time_utc then
    .error "UNIQUE constraint failed: schedules.kind, schedules.meme_id, schedules.scheduled_time_utc"
  else
    let row : Schedule :=
      { sid := next_sid, kind := kind, meme_id := meme_id,
        story_id := story_id, carousel_id := none,
        caption_variant_no := caption_variant_no,
        planned_time_utc := planned_time_utc, jitter_sec := jitter_sec,
        scheduled_time_utc := scheduled_time_utc, status := "queued",
        priority := priority }
    .ok (rows ++ [row], next_sid)

/-! ## Slot mutations (`db.assign_schedule_meme`, `db.mark_schedule_posted`,
`db.mark_schedule_failed`, claim C2) -/

/-- `db.assign_schedule_meme`:
`UPDATE schedules SET meme_id = ?, caption_variant_no = ? WHERE id = ?`.
The only condition in the statement is the row id — there is no
`meme_id IS NULL` guard. -/
def assign_schedule_meme (rows : List Schedule) (schedule_id : Nat) (meme_id : Nat)
    (variant_no : Option Nat) : List Schedule :=
  rows.map (fun r =>
    if r.sid = schedule_id then
      { r with meme_id := some meme_id, caption_variant_no := variant_no }
    else r)

/-- The `posts` row inserted by `db.mark_schedule_posted`. -/
def postedAudit (schedule_id : Nat) (posted_at : Int) (platform_post_id : String) : Post :=
  { schedule_id := schedule_id, platform_post_id := some platform_post_id,
    posted_at_utc := some posted_at, status := "posted", error := none }

/-- The `posts` row inserted by `db.mark_schedule_failed`. -/
def failedAudit (schedule_id : Nat) (error : String) : Post :=
  { schedule_id := schedule_id, platform_post_id := none,
    posted_at_utc := none, status := "failed", error := some error }

/-- `db.mark_schedule_posted`:
`UPDATE schedules SET status = 'posted', error = NULL WHERE id = ?` plus an
INSERT into `posts`. The update is conditioned only on the row id — there
is no `status = 'queued'` guard. -/
def mark_schedule_posted (db : DB) (schedule_id : Nat) (posted_at : Int)
    (platform_post_id : String) : DB :=
  { db with
    schedules := db.schedules.map (fun r =>
      if r.sid = schedule_id then { r with status := "posted", error := none } else r),
    posts := db.posts ++ [postedAudit schedule_id posted_at platform_post_id] }

/-- `db.mark_schedule_failed`:
`UPDATE schedules SET status = 'failed', error = ? WHERE id = ?` plus an
INSERT into `posts`; again conditioned only on the row id. -/
def mark_schedule_failed (db : DB) (schedule_id : Nat) (error : String) : DB :=
  { db with
    schedules := db.schedules.map (fun r =>
      if r.sid = schedule_id then { r with status := "failed", error := some error } else r),
    posts := db.posts ++ [failedAudit schedule_id error] }

/-- The first schedule row with a given id (`WHERE id = ?` on the primary key). -/
def findSchedule (rows : List Schedule) (sid : Nat) : Option Schedule :=
  rows.find? (fun r => r.sid == sid)

/-- A one-slot table with a bound reference and a settled status, and a
database around it. -/
def settledSlot : Schedule :=
  { sid := 1, kind := "meme", meme_id := some 5, caption_variant_no := some 2,
    planned_time_utc := 100, scheduled_time_utc := 100, status := "failed",
    error := some "boom" }

/-! ## Content-to-slot assignment (`scheduler.assign_memes_to_open_slots`,
`scheduler.assign_memes_with_variants`, claim C5) -/

/-- `ORDER BY scheduled_time_utc ASC`. -/
def schedLE (a b : Schedule) : Prop :=
  a.scheduled_time_utc ≤ b.scheduled_time_utc

instance : DecidableRel schedLE := fun x y => Int.decLe x.scheduled_time_utc y.scheduled_time_utc

instance : IsTotal Schedule schedLE := ⟨fun x y => Int.le_total x.scheduled_time_utc y.scheduled_time_utc⟩

instance : IsTrans Schedule schedLE := ⟨fun _ _ _ => Int.le_trans⟩

/-- The open-slot query of both assigners:
`SELECT id FROM schedules WHERE kind='meme' AND status='queued' AND
meme_id IS NULL ORDER BY scheduled_time_utc ASC` (modelled as returning
the rows; the code reads their ids). -/
def openMemeSlots (rows : List Schedule) : List Schedule :=
  List.insertionSort schedLE (rows.filter (fun r =>
    r.kind == "meme" && r.status == "queued" && r.meme_id == none))

/-- One iteration of the `assign_memes_to_open_slots` loop:
`UPDATE schedules SET meme_id = ? WHERE id = ?` for the pair
`(meme_id, schedule_id)`. -/
def bindMeme (rows : List Schedule) (p : Nat × Nat) : List Schedule :=
  rows.map (fun r => if r.sid = p.2 then { r with meme_id := some p.1 } else r)

/-- `scheduler.assign_memes_to_open_slots`: `zip(meme_ids, open_rows)`
drives the per-pair UPDATE, so binding stops at the shorter list. -/
def assign_memes_to_open_slots (meme_ids : List Nat) (db : DB) : DB :=
  { db with schedules :=
      ((meme_ids.zip ((openMemeSlots db.schedules).map (·.sid))).foldl
        bindMeme db.schedules) }

/-- `scheduler.assign_memes_with_variants`: same pairing, but each bind
goes through `db.assign_schedule_meme` with a variant drawn by
`pick_variant_random` (abstracted as `variantPick`, reading only the
`captions` table, which the loop does not modify). -/
def assign_memes_with_variants (variantPick : Nat → Option Nat)
    (meme_ids : List Nat) (db : DB) : DB :=
  { db with schedules :=
      ((meme_ids.zip ((openMemeSlots db.schedules).map (·.sid))).foldl
        (fun acc p => assign_schedule_meme acc p.2 p.1 (variantPick p.1))
        db.schedules) }

/-- Three open meme Slots at times 10 < 20 < 30 (stored out of order) and
one already-bound Slot that assignment must not touch. -/
def fifoDB : DB :=
  { schedules :=
      [ { sid := 2, kind := "meme", planned_time_utc := 20, scheduled_time_utc := 20 },
        { sid := 1, kind := "meme", planned_time_utc := 10, scheduled_time_utc := 10 },
        { sid := 3, kind := "meme", planned_time_utc := 30, scheduled_time_utc := 30 },
        { sid := 4, kind := "meme", meme_id := some 9,
          planned_time_utc := 5, scheduled_time_utc := 5 } ] }

/-! ## Slot planning (`scheduler.plan_day`, `plan_week`,
`ingest_week_plan_json`, claim C6) -/

/-- `scheduler.to_utc_iso_z` on the minute model: IST (UTC+05:30) local
minutes to UTC minutes. -/
def to_utc (ist_minutes : Int) : Int :=
  ist_minutes - 330

/-- The row `db.create_schedule` inserts for a planner call (status
`queued`, no content bound; every planner insert has `meme_id = NULL`, so
by the C3 analysis the INSERT always succeeds). The planner models do not
track sqlite's id counter, so `sid` is left at 0. -/
def plannedRow (kind : String) (planned scheduled : Int) (jitter_sec : Int) : Schedule :=
  { sid := 0, kind := kind, planned_time_utc := planned,
    jitter_sec := jitter_sec, scheduled_time_utc := scheduled }

/-- The loop of `scheduler.plan_randomized_slots_ist`. `accept i` models
the draw `random.random() <= min(1.0, weight / 2.5)` at iteration `i`
(the weight only biases that coin); `jit i` models
`random.randint(-jitter_min, jitter_min)` (its `[-J, J]` range is a
hypothesis of the theorems, as the contract of `randint`). `fuel` counts
the remaining iterations of `for i in range(count * 3)`; the loop breaks
as soon as `count` slots are collected. -/
def planRandAux (accept : Nat → Bool) (jit : Nat → Int) (interval : Nat)
    (count : Nat) : Nat → Nat → List Int → List Int
  | 0, _, acc => acc
  | fuel + 1, i, acc =>
    if accept i then
      let minute : Int := ((i * interval) % 1440 : Nat)
      let jittered := minute + jit i
      let acc2 := if 0 ≤ jittered ∧ jittered < 1440 then acc ++ [jittered] else acc
      if count ≤ acc2.length then acc2
      else planRandAux accept jit interval count fuel (i + 1) acc2
    else planRandAux accept jit interval count fuel (i + 1) acc

/-- `scheduler.plan_randomized_slots_ist` (minutes within the target IST
day): oversample 3x, accept by daypart-weighted coin, jitter, clamp to the
day, de-duplicate, sort ascending, truncate to `count`. -/
def plan_randomized_slots_ist (accept : Nat → Bool) (jit : Nat → Int)
    (count : Nat) (base_every_min : Nat) : List Int :=
  if count = 0 then []
  else
    let interval := max 5 base_every_min
    let slots := planRandAux accept jit interval count (count * 3) 0 []
    (List.insertionSort (· ≤ ·) slots.dedup).take count

/-- `scheduler.plan_day`: weighted-random slots for memes (spacing 60,
jitter 15) and stories (spacing 30, jitter 7); each slot is persisted with
`planned = s - timedelta(minutes=0)` — that is, the already-jittered
instant — and `scheduled = s`, both converted to UTC, `jitter_sec = 0`. -/
def plan_day (acceptM acceptS : Nat → Bool) (jitM jitS : Nat → Int)
    (count_memes count_stories : Nat) : List Schedule :=
  let meme_slots := plan_randomized_slots_ist acceptM jitM count_memes 60
  let story_slots := plan_randomized_slots_ist acceptS jitS count_stories 30
  meme_slots.map (fun s => plannedRow "meme" (to_utc s) (to_utc s) 0) ++
    story_slots.map (fun s => plannedRow "story" (to_utc s) (to_utc s) 0)

/-- The fixed meme target times of `scheduler.plan_week` (minutes). -/
def base_meme_times : List Int :=
  [7 * 60 + 20, 8 * 60 + 10, 8 * 60 + 55,
   12 * 60 + 10, 12 * 60 + 55, 13 * 60 + 40,
   19 * 60 + 10, 20 * 60, 20 * 60 + 50, 21 * 60 + 40, 22 * 60 + 20,
   23 * 60 + 45]

/-- The fixed story target times of `scheduler.plan_week`:
`[time(h, m) for h in range(10, 22) for m in (0, 30)] + [time(21, 30)]`
(note the duplicated 21:30, kept faithfully). -/
def base_story_times : List Int :=
  ((List.range 12).map (fun k =>
    [((10 + k) * 60 : Int), (10 + k) * 60 + 30])).flatten ++ [21 * 60 + 30]

/-- `scheduler.plan_week`: for each of `days` consecutive days (day `d`
modelled as minute offset `d * 1440`), each fixed target time gets an
independent jitter draw (`jm`/`js`, indexed by day and slot);
`planned_time` is the un-jittered target in UTC, `scheduled_time` the
jittered one, `jitter_sec = jitter * 60`. -/
def plan_week (jm js : Nat → Nat → Int) (days : Nat) : List Schedule :=
  ((List.range days).map (fun d =>
    base_meme_times.enum.map (fun p =>
      let base := Int.ofNat d * 1440 + p.2
      plannedRow "meme" (to_utc base) (to_utc (base + jm d p.1)) (jm d p.1 * 60)) ++
    base_story_times.enum.map (fun p =>
      let base := Int.ofNat d * 1440 + p.2
      plannedRow "story" (to_utc base) (to_utc (base + js d p.1)) (js d p.1 * 60)))).flatten

/-- One record of the exported/ingested weekly plan JSON:
a calendar date (as a day offset), a local `hh:mm` and a `kind`. -/
structure PlanEntry where
  date_day : Int
  hh : Int
  mm : Int
  kind : String
deriving Repr, DecidableEq

/-- `scheduler.ingest_week_plan_json`: each entry is re-derived from its
local time plus a fresh jitter draw chosen by kind (`story` → `jitS`,
`reel` → `jitR`, anything else → `jitM`), `planned_time` un-jittered,
`scheduled_time` jittered, both in UTC. -/
def ingest_week_plan (jitM jitS jitR : Nat → Int) (entries : List PlanEntry) :
    List Schedule :=
  entries.enum.map (fun p =>
    let base := p.2.date_day * 1440 + p.2.hh * 60 + p.2.mm
    let j := if p.2.kind = "story" then jitS p.1
             else if p.2.kind = "reel" then jitR p.1 else jitM p.1
    plannedRow p.2.kind (to_utc base) (to_utc (base + j)) (j * 60))

/-! ## Dispatch (`main.cmd_post_due_all` over `db.fetch_due_schedules`,
`publisher.instagram_client`, claims C1, C8, C10) -/

/-- The external Publisher (`InstagramClient`). Each field models a
composite Graph-API interaction (`create container` + `publish`): the
returned platform media id, or `.error` for any raised exception
(non-success response, timeout, ...). -/
structure Publisher where
  post_photo : String → String → Except String String
  post_carousel_api : List String → String → Except String String
  post_reel : String → String → Except String String
  create_comment : String → String → Except String String

/-- `InstagramClient.post_carousel`: fewer than 2 urls raises `ValueError`
before any API call. -/
def post_carousel (pub : Publisher) (image_urls : List String) (caption : String) :
    Except String String :=
  if image_urls.length < 2 then .error "Carousel requires at least 2 image URLs"
  else pub.post_carousel_api image_urls caption

/-- `InstagramClient.create_story_container`: unconditionally raises
`NotImplementedError`. -/
def create_story_container (_image_url : String) (_caption : Option String) :
    Except String String :=
  .error "Stories publishing via API not implemented in this client. Prepare media manually or extend with official endpoint when available."

/-- `InstagramClient.post_story`: container creation then publish; the
container step always raises, so the publish step is never reached. -/
def post_story (image_url : String) (caption : Option String) :
    Except String String :=
  match create_story_container image_url caption with
  | .error e => .error e
  | .ok creation_id => .ok creation_id

/-- `db.get_meme` (row for an id; the code reads
`(id, image_url, caption, hashtags)`). -/
def get_meme (memes : List Meme) (mid : Nat) : Option Meme :=
  memes.find? (fun r => r.mid == mid)

/-- `db.get_caption_variant`: active variant row for `(meme_id, variant_no)`. -/
def get_caption_variant (captions : List CaptionVariant) (mid vno : Nat) :
    Option (String × Option String) :=
  (captions.find? (fun c => c.meme_id == mid && c.variant_no == vno && c.active)).map
    (fun c => (c.caption_text, c.hashtags))

/-- `ORDER BY position ASC` on carousel items. -/
def itemLE (a b : CarouselItem) : Prop :=
  a.position ≤ b.position

instance : DecidableRel itemLE := fun x y => Nat.decLe x.position y.position

instance : IsTotal CarouselItem itemLE := ⟨fun x y => Nat.le_total x.position y.position⟩

instance : IsTrans CarouselItem itemLE := ⟨fun _ _ _ => Nat.le_trans⟩

/-- `db.get_carousel`: caption and ordered item urls; a missing carousel
row raises `RuntimeError("Carousel not found")`. -/
def get_carousel (carousels : List Carousel) (items : List CarouselItem)
    (cid : Nat) : Except String (String × List String) :=
  match carousels.find? (fun c => c.cid == cid) with
  | none => .error "Carousel not found"
  | some c =>
    .ok (c.caption,
      (List.insertionSort itemLE (items.filter (fun it => it.carousel_id == cid))).map
        (·.image_url))

/-- `" ".join([t for t in [base_tags or "", rotated] if t]).strip()`. -/
def joinTags (base_tags rotated : String) : String :=
  pyStrip (String.intercalate " " ([base_tags, rotated].filter (fun t => t ≠ "")))

/-- The `kind == 'meme'` branch of `cmd_post_due_all`: resolve the meme
(missing → `RuntimeError`), apply a truthy bound caption variant if it
resolves, rotate hashtags by schedule id, publish the photo and push the
combined tags as a best-effort first comment (its failure is caught and
only logged). -/
def dispatchMeme (pub : Publisher) (memes : List Meme)
    (captions : List CaptionVariant) (pools : List HashtagPool)
    (r : Schedule) : Except String String :=
  match get_meme memes (r.meme_id.getD 0) with
  | none => .error ("Meme " ++ toString (r.meme_id.getD 0) ++ " missing")
  | some m =>
    let base : Option String × Option String :=
      match r.caption_variant_no with
      | some v =>
        if v ≠ 0 then
          match get_caption_variant captions (r.meme_id.getD 0) v with
          | some cv => (some cv.1, cv.2)
          | none => (m.caption, m.hashtags)
        else (m.caption, m.hashtags)
      | none => (m.caption, m.hashtags)
    let rotated := rotate_hashtags (get_hashtag_pool pools) r.sid
    let tags_combined := joinTags (base.2.getD "") rotated
    let caption_only := pyStrip (base.1.getD "")
    match pub.post_photo m.image_url caption_only with
    | .error e => .error e
    | .ok media_id =>
      let _ := if tags_combined ≠ "" then some (pub.create_comment media_id tags_combined)
               else none
      .ok media_id

/-- The `kind == 'carousel'` branch: resolve the carousel (missing →
`RuntimeError`), publish, best-effort rotated-tags comment. -/
def dispatchCarousel (pub : Publisher) (carousels : List Carousel)
    (items : List CarouselItem) (pools : List HashtagPool)
    (r : Schedule) : Except String String :=
  match get_carousel carousels items (r.carousel_id.getD 0) with
  | .error e => .error e
  | .ok cap_urls =>
    let rotated := rotate_hashtags (get_hashtag_pool pools) r.sid
    match post_carousel pub cap_urls.2 (pyStrip cap_urls.1) with
    | .error e => .error e
    | .ok media_id =>
      let _ := if rotated ≠ "" then some (pub.create_comment media_id rotated) else none
      .ok media_id

/-- The `kind == 'reel'` branch: resolve the meme (missing →
`RuntimeError`), publish the video; a publish failure is re-raised as
`RuntimeError("Reel publish failed: ...")`; best-effort comment. -/
def dispatchReel (pub : Publisher) (memes : List Meme)
    (pools : List HashtagPool) (r : Schedule) : Except String String :=
  match get_meme memes (r.meme_id.getD 0) with
  | none => .error ("Meme " ++ toString (r.meme_id.getD 0) ++ " missing for reel")
  | some m =>
    let rotated := rotate_hashtags (get_hashtag_pool pools) r.sid
    let tags_combined := joinTags (m.hashtags.getD "") rotated
    match pub.post_reel m.image_url (pyStrip (m.caption.getD "")) with
    | .error e => .error ("Reel publish failed: " ++ e)
    | .ok media_id =>
      let _ := if tags_combined ≠ "" then some (pub.create_comment media_id tags_combined)
               else none
      .ok media_id

/-- The branch structure of one `cmd_post_due_all` iteration on a fetched
row, in source order (`meme` / `story` / `carousel` / `reel` / final
`else`). `none` models the final `else`, which only prints
"Unknown kind or missing ids ..., skipping" and performs no transition;
`some` is the outcome of the guarded `try` body: the story branch
unconditionally succeeds with the empty platform id, without any Publisher
interaction. Only the never-mutated tables (memes, captions, carousels,
carousel items, hashtag pools) are read. -/
def attemptSchedule (pub : Publisher) (db : DB) (r : Schedule) :
    Option (Except String String) :=
  if r.kind == "meme" && optTruthy r.meme_id then
    some (dispatchMeme pub db.memes db.captions db.hashtag_pools r)
  else if r.kind == "story" then
    some (.ok "")
  else if r.kind == "carousel" && optTruthy r.carousel_id then
    some (dispatchCarousel pub db.carousels db.carousel_items db.hashtag_pools r)
  else if r.kind == "reel" && optTruthy r.meme_id then
    some (dispatchReel pub db.memes db.hashtag_pools r)
  else none

/-- One iteration of the `cmd_post_due_all` loop: success marks the Slot
posted with the platform id, any exception raised inside the `try` is
caught by the per-item `except` and recorded via `mark_schedule_failed`;
the final `else` changes nothing. `now` is the pass's single `now_iso`. -/
def processOne (pub : Publisher) (now : Int) (db : DB) (r : Schedule) : DB :=
  match attemptSchedule pub db r with
  | none => db
  | some (.ok media_id) => mark_schedule_posted db r.sid now media_id
  | some (.error e) => mark_schedule_failed db r.sid e

/-- The WHERE clause of `db.fetch_due_schedules`:
`status = 'queued' AND scheduled_time_utc <= ?`, plus `AND kind = ?` when
a truthy kind is given (Python `if kind:`). -/
def dueFilter (now : Int) (kind : Option String) (r : Schedule) : Bool :=
  r.status == "queued" && decide (r.scheduled_time_utc ≤ now) &&
    (match kind with
     | none => true
     | some k => if k ≠ "" then r.kind == k else true)

/-- `db.fetch_due_schedules`: filter by `dueFilter`, `ORDER BY
scheduled_time_utc ASC`, and a truthy `LIMIT` (Python `if limit:`). -/
def fetch_due_schedules (db : DB) (now : Int) (kind : Option String)
    (limit : Option Nat) : List Schedule :=
  match limit with
  | none => List.insertionSort schedLE (db.schedules.filter (dueFilter now kind))
  | some l =>
    if l ≠ 0 then
      (List.insertionSort schedLE (db.schedules.filter (dueFilter now kind))).take l
    else List.insertionSort schedLE (db.schedules.filter (dueFilter now kind))

/-- `main.cmd_post_due_all`: fetch the due queued rows once (no kind
filter), then run the guarded per-row loop. -/
def cmd_post_due_all (pub : Publisher) (now : Int) (limit : Option Nat)
    (db : DB) : DB :=
  (fetch_due_schedules db now none limit).foldl (processOne pub now) db

/-- The audit rows of a Slot (`posts` filtered by `schedule_id`). -/
def postsFor (db : DB) (sid : Nat) : List Post :=
  db.posts.filter (fun p => p.schedule_id == sid)

/-- A fetched row the dispatcher actually handles: known kind with the
reference that branch requires being bound (truthy). -/
def knownKindBound (r : Schedule) : Prop :=
  (r.kind = "meme" ∧ optTruthy r.meme_id) ∨ r.kind = "story" ∨
    (r.kind = "carousel" ∧ optTruthy r.carousel_id) ∨
    (r.kind = "reel" ∧ optTruthy r.meme_id)

instance (r : Schedule) : Decidable (knownKindBound r) := by
  unfold knownKindBound
  infer_instance

/-- A concrete Publisher for witnesses: photo publishing raises exactly on
image url "u2", everything else succeeds. -/
def witnessPub : Publisher :=
  { post_photo := fun url _ => if url = "u2" then .error "boom" else .ok ("ig-" ++ url),
    post_carousel_api := fun _ _ => .ok "igc",
    post_reel := fun _ _ => .ok "igr",
    create_comment := fun _ _ => .ok "c1" }

/-- A Publisher whose every endpoint raises. -/
def failPub : Publisher :=
  { post_photo := fun _ _ => .error "down",
    post_carousel_api := fun _ _ => .error "down",
    post_reel := fun _ _ => .error "down",
    create_comment := fun _ _ => .error "down" }

/-- A due, BOUND Slot of an unknown kind. -/
def bananaSlot : Schedule :=
  { sid := 1, kind := "banana", meme_id := some 1,
    planned_time_utc := 0, scheduled_time_utc := 0 }

/-- A database whose only Slot is due, bound, and of unknown kind. -/
def unknownKindDB : DB :=
  { memes := [{ mid := 1, source := "s", source_id := "x", title := "t", image_url := "u1" }],
    schedules := [bananaSlot] }

/-- Five due meme Slots bound to memes 1..5 in time order; meme 2's image
url is the one `witnessPub` raises on. -/
def fiveDB : DB :=
  { memes :=
      [ { mid := 1, source := "s", source_id := "a", title := "t", image_url := "u1" },
        { mid := 2, source := "s", source_id := "b", title := "t", image_url := "u2" },
        { mid := 3, source := "s", source_id := "c", title := "t", image_url := "u3" },
        { mid := 4, source := "s", source_id := "d", title := "t", image_url := "u4" },
        { mid := 5, source := "s", source_id := "e", title := "t", image_url := "u5" } ],
    schedules :=
      [ { sid := 1, kind := "meme", meme_id := some 1,
          planned_time_utc := 10, scheduled_time_utc := 10 },
        { sid := 2, kind := "meme", meme_id := some 2,
          planned_time_utc := 20, scheduled_time_utc := 20 },
        { sid := 3, kind := "meme", meme_id := some 3,
          planned_time_utc := 30, scheduled_time_utc := 30 },
        { sid := 4, kind := "meme", meme_id := some 4,
          planned_time_utc := 40, scheduled_time_utc := 40 },
        { sid := 5, kind := "meme", meme_id := some 5,
          planned_time_utc := 50, scheduled_time_utc := 50 } ] }

/-- The first Slot of `fiveDB`. -/
def fiveSlot1 : Schedule :=
  { sid := 1, kind := "meme", meme_id := some 1,
    planned_time_utc := 10, scheduled_time_utc := 10 }

/-- A due story Slot with NO story payload bound. -/
def storySlot : Schedule :=
  { sid := 7, kind := "story", planned_time_utc := 0, scheduled_time_utc := 0 }

/-- A database whose only Slot is the unbound due story Slot. -/
def storyDB : DB :=
  { schedules := [storySlot] }

/-! ## Properties: claim theorems, counterexamples and witnesses -/

theorem dedupFirst_nil : dedupFirst [] = [] := by
  rw [dedupFirst]

theorem dedupFirst_cons (t : String) (ts : List String) :
    dedupFirst (t :: ts) = t :: dedupFirst (ts.filter (fun x => x ≠ t)) := by
  rw [dedupFirst]

theorem dedupSeen_eq_dedupFirst_filter (l : List String) (seen : List String) :
    dedupSeen l seen = dedupFirst (l.filter (fun x => x ∉ seen)) := by
  induction l generalizing seen with
  | nil => simp [dedupSeen, dedupFirst_nil]
  | cons t ts ih =>
    by_cases h : t ∈ seen
    · rw [dedupSeen, if_pos h, List.filter_cons, if_neg (by simp [h])]
      exact ih seen
    · rw [dedupSeen, if_neg h, List.filter_cons, if_pos (by simp [h]),
        dedupFirst_cons, ih (t :: seen)]
      congr 1
      rw [List.filter_filter]
      congr 1
      apply List.filter_congr
      intro x _
      simp [List.mem_cons, not_or]

theorem splitTags_empty : splitTags "" = [] := by decide

/-- The per-pool loop body of `_rotate_hashtags` computes `poolContribution`. -/
theorem pool_branch_eq (g : String → Option String) (s i : Nat) (name : String) :
    rotatePoolPick g s i name = poolContribution g s i name := by
  cases hg : g name with
  | none => simp [rotatePoolPick, poolContribution, hg, splitTags_empty]
  | some csv =>
    simp only [rotatePoolPick, poolContribution, hg, Option.getD_some, rotateLeft,
      poolLimit, List.isEmpty_iff, Nat.mul_comm]
    by_cases h : splitTags csv = []
    · simp [h]
    · simp only [if_neg h, ite_not]

/-- `_rotate_hashtags` equals the spec pipeline with exact-match dedup. -/
theorem rotate_hashtags_eq_exact (g : String → Option String) (s : Nat) :
    rotate_hashtags g s = rotate_hashtags_exact g s := by
  have henum : (["trending", "evergreen", "niche", "regional"] : List String).enum
      = [(0, "trending"), (1, "evergreen"), (2, "niche"), (3, "regional")] := rfl
  simp only [rotate_hashtags, rotate_hashtags_exact, henum, List.map_cons,
    List.map_nil, List.flatten]
  rw [pool_branch_eq g s 0 "trending", pool_branch_eq g s 1 "evergreen",
    pool_branch_eq g s 2 "niche", pool_branch_eq g s 3 "regional",
    dedupSeen_eq_dedupFirst_filter]
  simp [List.append_assoc]

/-- C4 counterexample: the claim says the concatenated pool picks are
"deduplicated case-insensitively", but the code de-duplicates by exact
string comparison. With `trending = "A"` and `evergreen = "a"` the
case-insensitive pipeline of the claim yields `"#A"`, while
`_rotate_hashtags` yields `"#A #a"`. -/
theorem C4_counterexample :
    rotate_hashtags caseClashPools 0 = "#A #a" ∧
      rotate_hashtags_claim caseClashPools 0 = "#A" := by
  constructor <;> decide

/-- C4 (amended): the hashtag rotation is exactly the claimed pipeline —
per-pool left-rotation by `(schedule_id + 3 * pool_index) mod n`, first
8 tags kept (5 for `regional`), pools concatenated in order, truncation
to 25, `#`-prefixed space-joined rendering, missing/empty pools skipped —
except that de-duplication preserves first-seen order under EXACT
(case-sensitive) comparison, not case-insensitive comparison. In
particular for `schedule_id = 7` and `trending = "a,b,...,j"` the
trending contribution is `h,i,j,a,b,c,d,e`. -/
theorem C4_rotate_hashtags :
    (∀ (g : String → Option String) (s : Nat),
      rotate_hashtags g s = rotate_hashtags_exact g s) ∧
    rotate_hashtags trendingOnlyPools 7 = "#h #i #j #a #b #c #d #e" :=
  ⟨rotate_hashtags_eq_exact, by decide⟩

theorem find?_eq_some_of_unique {α : Type} {p : α → Bool} {l : List α} {r : α}
    (hmem : r ∈ l) (hr : p r = true) (huniq : ∀ x ∈ l, p x = true → x = r) :
    l.find? p = some r := by
  induction l with
  | nil => cases hmem
  | cons a as ih =>
    by_cases hp : p a = true
    · rw [List.find?_cons_of_pos _ hp]
      exact congrArg some (huniq a (List.mem_cons_self a as) hp)
    · rw [List.find?_cons_of_neg _ (by simpa using hp)]
      have har : a ≠ r := fun h => hp (h ▸ hr)
      rcases List.mem_cons.mp hmem with h | h
      · exact absurd h.symm har
      · exact ih h (fun x hx hpx => huniq x (List.mem_cons_of_mem a hx) hpx)

/-- C7: creating content with an already-present `(origin, origin_id)` pair
returns the existing row's id and leaves the store unchanged; with a fresh
pair it appends exactly one row and returns that row's id. -/
theorem C7_create_meme_idempotent
    (memes : List Meme) (next_id : Nat) (source source_id title image_url : String) :
    (∀ r, r ∈ memes → r.source = source → r.source_id = source_id →
      (∀ x ∈ memes, x.source = source → x.source_id = source_id → x = r) →
      create_meme_returning_id memes next_id source source_id title image_url
        = (memes, r.mid)) ∧
    ((∀ x ∈ memes, ¬(x.source = source ∧ x.source_id = source_id)) →
      create_meme_returning_id memes next_id source source_id title image_url
        = (memes ++ [{ mid := next_id, source := source, source_id := source_id,
                       title := title, image_url := image_url }], next_id) ∧
      (create_meme_returning_id memes next_id source source_id title image_url).1.length
        = memes.length + 1) := by
  constructor
  · intro r hmem hs hsid huniq
    have hfind : memes.find? (memeKeyIs source source_id) = some r :=
      find?_eq_some_of_unique hmem
        (by simp [memeKeyIs, hs, hsid])
        (fun x hx hpx => by
          have := by simpa [memeKeyIs] using hpx
          exact huniq x hx this.1 this.2)
    simp [create_meme_returning_id, hfind]
  · intro hfresh
    have hfind : memes.find? (memeKeyIs source source_id) = none := by
      rw [List.find?_eq_none]
      intro x hx hpx
      have := by simpa [memeKeyIs] using hpx
      exact hfresh x hx this
    constructor
    · simp [create_meme_returning_id, hfind]
    · simp [create_meme_returning_id, hfind]

/-- Witness for C7 at a concrete store: the pair `("reddit", "p1")` exists,
so re-creating it returns id 1 and leaves the single-row store unchanged;
the fresh pair `("reddit", "p2")` appends one row with id 2. -/
theorem C7_witness :
    (create_meme_returning_id
        [{ mid := 1, source := "reddit", source_id := "p1", title := "t", image_url := "u" }]
        2 "reddit" "p1" "t2" "u2"
      = ([{ mid := 1, source := "reddit", source_id := "p1", title := "t", image_url := "u" }], 1)) ∧
    (create_meme_returning_id
        [{ mid := 1, source := "reddit", source_id := "p1", title := "t", image_url := "u" }]
        2 "reddit" "p2" "t2" "u2").1.length = 2 := by
  refine ⟨?_, ?_⟩
  · exact (C7_create_meme_idempotent
        [{ mid := 1, source := "reddit", source_id := "p1", title := "t", image_url := "u" }]
        2 "reddit" "p1" "t2" "u2").1
      { mid := 1, source := "reddit", source_id := "p1", title := "t", image_url := "u" }
      (by decide) (by decide) (by decide)
      (by intro x hx h1 h2; simp only [List.mem_singleton] at hx; exact hx)
  · have h := ((C7_create_meme_idempotent
        [{ mid := 1, source := "reddit", source_id := "p1", title := "t", image_url := "u" }]
        2 "reddit" "p2" "t2" "u2").2
      (by intro x hx hpair
          simp only [List.mem_singleton] at hx
          subst hx
          exact absurd hpair.2 (by decide))).2
    simpa using h

/-- C9 counterexample: the claim says creation with more than 10 images
uses only the first 10, but `create_carousel_from_memes` applied to 11
resolvable meme ids succeeds and persists all 11 item rows. -/
theorem C9_counterexample :
    (create_carousel_from_memes elevenMemes {} ((List.range 11).map (· + 1)) none).2
        = .ok 1 ∧
    (create_carousel_from_memes elevenMemes {} ((List.range 11).map (· + 1)) none).1.items.length
        = 11 := by
  constructor <;> decide

/-- C9 (amended): `create_carousel_from_urls` behaves as claimed — fewer
than 2 non-empty urls is a validation error with nothing persisted, and
more than 10 urls succeed using only the first 10. For
`create_carousel_from_memes`, fewer than 2 meme ids is rejected with
nothing persisted, but ≥ 2 ids resolving to fewer than 2 valid images
raise only AFTER persisting the carousel row and its items, and ≥ 2
resolved images are all used without truncation to 10. -/
theorem C9_carousel_validation (st : CarStore) (memes : List Meme)
    (image_urls : List String) (meme_ids : List Nat) (caption : Option String) :
    ((image_urls.filter (fun u => u ≠ "")).length < 2 →
      create_carousel_from_urls st image_urls caption
        = (st, .error "Carousel requires at least 2 images")) ∧
    (2 ≤ (image_urls.filter (fun u => u ≠ "")).length →
      (create_carousel_from_urls st image_urls caption).2 = .ok st.next_id ∧
      (create_carousel_from_urls st image_urls caption).1.items
        = st.items ++ ((image_urls.filter (fun u => u ≠ "")).take 10).enum.map
            (fun p => { carousel_id := st.next_id, image_url := p.2, position := p.1 + 1 })) ∧
    (meme_ids.length < 2 →
      create_carousel_from_memes memes st meme_ids caption
        = (st, .error "Carousel requires at least 2 meme ids")) ∧
    (2 ≤ meme_ids.length → (resolveMemeUrls memes meme_ids).length < 2 →
      (create_carousel_from_memes memes st meme_ids caption).2
          = .error "Not enough valid images to build carousel" ∧
      (create_carousel_from_memes memes st meme_ids caption).1.carousels
          = st.carousels ++ [{ cid := st.next_id, caption := caption.getD "" }]) ∧
    (2 ≤ meme_ids.length → 2 ≤ (resolveMemeUrls memes meme_ids).length →
      (create_carousel_from_memes memes st meme_ids caption).2 = .ok st.next_id ∧
      (create_carousel_from_memes memes st meme_ids caption).1.items.length
          = st.items.length + (resolveMemeUrls memes meme_ids).length) := by
  refine ⟨?_, ?_, ?_, ?_, ?_⟩
  · intro h
    simp only [create_carousel_from_urls, if_pos h]
  · intro h
    have h2 : ¬((image_urls.filter (fun u => u ≠ "")).length < 2) := by omega
    simp only [create_carousel_from_urls, if_neg h2]
    simp
  · intro h
    simp only [create_carousel_from_memes, if_pos h]
  · intro h hu
    have h2 : ¬(meme_ids.length < 2) := by omega
    simp only [create_carousel_from_memes, if_neg h2, if_pos hu]
    simp
  · intro h hu
    have h2 : ¬(meme_ids.length < 2) := by omega
    have hu2 : ¬((resolveMemeUrls memes meme_ids).length < 2) := by omega
    simp only [create_carousel_from_memes, if_neg h2, if_neg hu2]
    simp [List.enum_length]

/-- Witness for C9 at concrete inputs: one url is rejected unchanged;
three urls (one empty, so two valid) succeed with both kept; one meme id
is rejected; two ids with one resolvable image persist the carousel row
yet error; two resolvable ids succeed with two items. -/
theorem C9_witness :
    (create_carousel_from_urls {} ["a"] none
      = ({}, .error "Carousel requires at least 2 images")) ∧
    (create_carousel_from_urls {} ["a", "", "b"] none).2 = .ok 1 ∧
    (create_carousel_from_memes elevenMemes {} [1] none
      = ({}, .error "Carousel requires at least 2 meme ids")) ∧
    (create_carousel_from_memes elevenMemes {} [1, 99] none).2
      = .error "Not enough valid images to build carousel" ∧
    (create_carousel_from_memes elevenMemes {} [1, 99] none).1.carousels
      = [{ cid := 1, caption := "" }] ∧
    (create_carousel_from_memes elevenMemes {} [1, 2] none).2 = .ok 1 := by
  refine ⟨?_, ?_, ?_, ?_, ?_, ?_⟩
  · exact (C9_carousel_validation {} elevenMemes ["a"] [1] none).1 (by decide)
  · exact ((C9_carousel_validation {} elevenMemes ["a", "", "b"] [1] none).2.1 (by decide)).1
  · exact (C9_carousel_validation {} elevenMemes ["a"] [1] none).2.2.1 (by decide)
  · exact ((C9_carousel_validation {} elevenMemes ["a"] [1, 99] none).2.2.2.1
      (by decide) (by decide)).1
  · have := ((C9_carousel_validation {} elevenMemes ["a"] [1, 99] none).2.2.2.1
      (by decide) (by decide)).2
    simpa using this
  · exact ((C9_carousel_validation {} elevenMemes ["a"] [1, 2] none).2.2.2.2
      (by decide) (by decide)).1

/-- C3 counterexample: the claim says no two schedule rows may share the
same `(kind, content reference, scheduled_time)` triple for stories and
carousels too, a second identical Slot being rejected with a hard error.
But creating the story Slot `(kind := "story", story_id := 1, t := 100)`
twice succeeds both times: the second insert is NOT rejected, and two rows
with the identical triple coexist. -/
theorem C3_counterexample :
    ((create_schedule [] 1 "story" 100 0 100 none (some 1) none 0).toOption.bind
      (fun p => (create_schedule p.1 2 "story" 100 0 100 none (some 1) none 0).toOption)).map
      (fun p => (p.1.filter (fun r =>
        r.kind == "story" && r.story_id == some 1 && r.scheduled_time_utc == 100)).length)
      = some 2 := by decide

/-- C3 (amended): the duplicate-publish guard covers only the meme
reference: attempting to create a second Slot with an identical
`(kind, meme_id, scheduled_time)` triple with non-null `meme_id` is
rejected with a hard error raised to the caller, while Slots whose
`meme_id` is NULL — story Slots, carousel Slots and unbound Slots — are
never rejected by this constraint, whatever triple they repeat. -/
theorem C3_schedule_uniqueness (rows : List Schedule) (next_sid : Nat)
    (kind : String) (pt : Int) (js : Int) (t : Int) (m : Nat)
    (story_id caption_variant_no : Option Nat) (priority : Int) :
    ((∃ r ∈ rows, r.kind = kind ∧ r.meme_id = some m ∧ r.scheduled_time_utc = t) →
      create_schedule rows next_sid kind pt js t (some m) story_id caption_variant_no priority
        = .error "UNIQUE constraint failed: schedules.kind, schedules.meme_id, schedules.scheduled_time_utc") ∧
    ((create_schedule rows next_sid kind pt js t none story_id caption_variant_no priority).isOk
      = true) := by
  constructor
  · rintro ⟨r, hr, h1, h2, h3⟩
    have hc : scheduleConflict rows kind (some m) t = true := by
      simp only [scheduleConflict, List.any_eq_true]
      exact ⟨r, hr, by simp [h1, h2, h3]⟩
    simp only [create_schedule, if_pos hc]
  · have hc : scheduleConflict rows kind none t = false := rfl
    simp only [create_schedule, hc, Bool.false_eq_true, if_false]
    rfl

/-- Witness for C3: with an existing row `(kind := "meme", meme_id := 5,
t := 100)`, re-creating the same triple errors, and a `meme_id`-less
story row is accepted. -/
theorem C3_witness :
    (create_schedule
        [{ sid := 1, kind := "meme", meme_id := some 5,
           planned_time_utc := 100, scheduled_time_utc := 100 }]
        2 "meme" 100 0 100 (some 5) none none 0
      = .error "UNIQUE constraint failed: schedules.kind, schedules.meme_id, schedules.scheduled_time_utc") ∧
    (create_schedule
        [{ sid := 1, kind := "meme", meme_id := some 5,
           planned_time_utc := 100, scheduled_time_utc := 100 }]
        2 "meme" 100 0 100 none none none 0).isOk = true := by
  constructor
  · exact (C3_schedule_uniqueness
        [{ sid := 1, kind := "meme", meme_id := some 5,
           planned_time_utc := 100, scheduled_time_utc := 100 }]
        2 "meme" 100 0 100 5 none none 0).1
      ⟨{ sid := 1, kind := "meme", meme_id := some 5,
         planned_time_utc := 100, scheduled_time_utc := 100 },
        by simp, rfl, rfl, rfl⟩
  · exact (C3_schedule_uniqueness
        [{ sid := 1, kind := "meme", meme_id := some 5,
           planned_time_utc := 100, scheduled_time_utc := 100 }]
        2 "meme" 100 0 100 5 none none 0).2

theorem find?_map_sid_update (f : Schedule → Schedule) (hf : ∀ r, (f r).sid = r.sid)
    (rows : List Schedule) (sid : Nat) :
    findSchedule (rows.map (fun r => if r.sid = sid then f r else r)) sid
      = (findSchedule rows sid).map f := by
  unfold findSchedule
  induction rows with
  | nil => rfl
  | cons a as ih =>
    rw [List.map_cons]
    by_cases h : a.sid = sid
    · rw [if_pos h,
        List.find?_cons_of_pos (p := fun r => r.sid == sid) (a := f a) _
          (by simp [hf a, h]),
        List.find?_cons_of_pos (p := fun r => r.sid == sid) (a := a) _
          (by simp [h])]
      rfl
    · rw [if_neg h,
        List.find?_cons_of_neg (p := fun r => r.sid == sid) (a := a) _
          (by simp [h]),
        List.find?_cons_of_neg (p := fun r => r.sid == sid) (a := a) _
          (by simp [h])]
      exact ih

/-- C2 counterexample: the claim says a second bind attempt on a Slot whose
content reference is non-null affects zero rows, and a posted/failed
transition on a Slot that is no longer `queued` affects zero rows, leaving
the Slot unchanged. But on a Slot with `meme_id = 5` a second bind rewrites
the reference to 6, and on a Slot with status `failed`,
`mark_schedule_posted` rewrites the status to `posted` and appends another
Post row: the mutations carry no state guard. -/
theorem C2_counterexample :
    assign_schedule_meme [settledSlot] 1 6 none
      = [{ settledSlot with meme_id := some 6, caption_variant_no := none }] ∧
    (mark_schedule_posted { schedules := [settledSlot] } 1 200 "IGM1").schedules
      = [{ settledSlot with status := "posted", error := none }] ∧
    (mark_schedule_posted { schedules := [settledSlot] } 1 200 "IGM1").posts.length = 1 := by
  refine ⟨by decide, by decide, by decide⟩

/-- C2 (amended): every Slot mutation is a single-row update keyed ONLY by
the Slot id, with no guard on current state: a bind attempt overwrites the
content reference and variant whatever their current values, and a
posted/failed transition overwrites the status whatever the current status,
appending one more Post row each time it is invoked. -/
theorem C2_mutations_unconditional (db : DB) (rows : List Schedule) (sid : Nat)
    (m : Nat) (v : Option Nat) (now : Int) (pid e : String) :
    findSchedule (assign_schedule_meme rows sid m v) sid
        = (findSchedule rows sid).map
            (fun r => { r with meme_id := some m, caption_variant_no := v }) ∧
    findSchedule (mark_schedule_posted db sid now pid).schedules sid
        = (findSchedule db.schedules sid).map
            (fun r => { r with status := "posted", error := none }) ∧
    (mark_schedule_posted db sid now pid).posts
        = db.posts ++ [postedAudit sid now pid] ∧
    findSchedule (mark_schedule_failed db sid e).schedules sid
        = (findSchedule db.schedules sid).map
            (fun r => { r with status := "failed", error := some e }) ∧
    (mark_schedule_failed db sid e).posts
        = db.posts ++ [failedAudit sid e] := by
  refine ⟨?_, ?_, rfl, ?_, rfl⟩
  · exact find?_map_sid_update
      (fun r => { r with meme_id := some m, caption_variant_no := v })
      (fun r => rfl) rows sid
  · exact find?_map_sid_update
      (fun r => { r with status := "posted", error := none })
      (fun r => rfl) db.schedules sid
  · exact find?_map_sid_update
      (fun r => { r with status := "failed", error := some e })
      (fun r => rfl) db.schedules sid

theorem findSchedule_update_key (f : Schedule → Schedule)
    (hf : ∀ r, (f r).sid = r.sid) (rows : List Schedule) (t s : Nat) :
    findSchedule (rows.map (fun r => if r.sid = t then f r else r)) s
      = if t = s then (findSchedule rows s).map f else findSchedule rows s := by
  induction rows with
  | nil => cases h : decide (t = s) <;> simp [findSchedule]
  | cons a as ih =>
    rw [List.map_cons]
    by_cases hat : a.sid = t
    · by_cases hts : t = s
      · rw [if_pos hat, if_pos hts, findSchedule,
          List.find?_cons_of_pos (p := fun r => r.sid == s) (a := f a) _
            (by simp [hf a, hat, hts]),
          findSchedule,
          List.find?_cons_of_pos (p := fun r => r.sid == s) (a := a) _
            (by simp [hat, hts])]
        rfl
      · have has : ¬(a.sid = s) := fun h => hts (hat ▸ h)
        rw [if_pos hat, if_neg hts, findSchedule,
          List.find?_cons_of_neg (p := fun r => r.sid == s) (a := f a) _
            (by simp [hf a, hat, hts]),
          findSchedule,
          List.find?_cons_of_neg (p := fun r => r.sid == s) (a := a) _
            (by simp [has])]
        have := ih
        rw [if_neg hts] at this
        exact this
    · by_cases has : a.sid = s
      · have hts : ¬(t = s) := fun h => hat (h ▸ has)
        rw [if_neg hat, if_neg hts, findSchedule,
          List.find?_cons_of_pos (p := fun r => r.sid == s) (a := a) _
            (by simp [has]),
          findSchedule,
          List.find?_cons_of_pos (p := fun r => r.sid == s) (a := a) _
            (by simp [has])]
      · rw [if_neg hat, findSchedule,
          List.find?_cons_of_neg (p := fun r => r.sid == s) (a := a) _
            (by simp [has]),
          findSchedule,
          List.find?_cons_of_neg (p := fun r => r.sid == s) (a := a) _
            (by simp [has])]
        exact ih

theorem findSchedule_foldl_update (upd : Nat × Nat → Schedule → Schedule)
    (hupd : ∀ p r, (upd p r).sid = r.sid)
    (pairs : List (Nat × Nat)) (hnd : (pairs.map Prod.snd).Nodup)
    (rows : List Schedule) (s : Nat) :
    findSchedule
        (pairs.foldl (fun acc p =>
          acc.map (fun r => if r.sid = p.2 then upd p r else r)) rows) s
      = match pairs.find? (fun p => p.2 == s) with
        | some p => (findSchedule rows s).map (upd p)
        | none => findSchedule rows s := by
  induction pairs generalizing rows with
  | nil => rfl
  | cons p ps ih =>
    rw [List.foldl_cons]
    have hnd2 : (ps.map Prod.snd).Nodup := (List.nodup_cons.mp hnd).2
    have hkey := findSchedule_update_key (upd p) (hupd p) rows p.2 s
    by_cases hps : p.2 = s
    · have hnotin : s ∉ ps.map Prod.snd := hps ▸ (List.nodup_cons.mp hnd).1
      have hnone : ps.find? (fun q => q.2 == s) = none := by
        rw [List.find?_eq_none]
        intro q hq hqs
        exact hnotin (List.mem_map.mpr ⟨q, hq, by simpa using hqs⟩)
      rw [ih hnd2, hnone, List.find?_cons_of_pos _ (by simpa using hps),
        hkey, if_pos hps]
    · rw [ih hnd2, List.find?_cons_of_neg _ (by simpa using hps)]
      rw [if_neg hps] at hkey
      cases hfind : ps.find? (fun q => q.2 == s) <;> simp [hkey]

/-- `(zip l1 l2).map Prod.snd` is the prefix of `l2` of `l1`'s length. -/
theorem map_snd_zip_eq_take {α β : Type} (l1 : List α) (l2 : List β) :
    (l1.zip l2).map Prod.snd = l2.take l1.length := by
  induction l1 generalizing l2 with
  | nil => simp
  | cons a as ih =>
    cases l2 with
    | nil => simp
    | cons b bs => simp [ih bs]

/-- In a table whose ids are distinct, `findSchedule` at a member's id
returns that member. -/
theorem findSchedule_of_mem {rows : List Schedule}
    (hnd : (rows.map (·.sid)).Nodup) {r : Schedule} (hr : r ∈ rows) :
    findSchedule rows r.sid = some r :=
  find?_eq_some_of_unique hr (by simp)
    (fun x hx hpx => List.inj_on_of_nodup_map hnd hx hr (by simpa using hpx))

/-- Both assigners fold the same per-pair single-row UPDATE over
`zip(meme_ids, open_rows)`; generically over the per-pair update `upd`
(which must preserve the row id), the `i`-th pair updates the `i`-th open
Slot and every Slot outside the paired prefix is untouched. -/
theorem assign_foldl_fifo (db : DB) (ids : List Nat)
    (hnd : (db.schedules.map (·.sid)).Nodup)
    (upd : Nat × Nat → Schedule → Schedule)
    (hupd : ∀ p r, (upd p r).sid = r.sid) :
    (∀ i (hi : i < ids.length) (ho : i < (openMemeSlots db.schedules).length),
      findSchedule
          ((ids.zip ((openMemeSlots db.schedules).map (·.sid))).foldl
            (fun acc p => acc.map (fun r => if r.sid = p.2 then upd p r else r))
            db.schedules)
          ((openMemeSlots db.schedules).get ⟨i, ho⟩).sid
        = some (upd (ids.get ⟨i, hi⟩, ((openMemeSlots db.schedules).get ⟨i, ho⟩).sid)
            ((openMemeSlots db.schedules).get ⟨i, ho⟩))) ∧
    (∀ s, s ∉ ((openMemeSlots db.schedules).map (·.sid)).take ids.length →
      findSchedule
          ((ids.zip ((openMemeSlots db.schedules).map (·.sid))).foldl
            (fun acc p => acc.map (fun r => if r.sid = p.2 then upd p r else r))
            db.schedules) s
        = findSchedule db.schedules s) := by
  have hperm : List.Perm (openMemeSlots db.schedules) (db.schedules.filter (fun r =>
      r.kind == "meme" && r.status == "queued" && r.meme_id == none)) :=
    List.perm_insertionSort _ _
  have hfsub : (db.schedules.filter (fun r =>
      r.kind == "meme" && r.status == "queued" && r.meme_id == none)).Sublist
      db.schedules := List.filter_sublist _
  have hnd_opens : ((openMemeSlots db.schedules).map (·.sid)).Nodup := by
    have h1 : ((db.schedules.filter (fun r =>
        r.kind == "meme" && r.status == "queued" && r.meme_id == none)).map (·.sid)).Nodup :=
      hnd.sublist (hfsub.map _)
    exact ((hperm.map (·.sid)).nodup_iff).mpr h1
  have hsnd : ((ids.zip ((openMemeSlots db.schedules).map (·.sid))).map Prod.snd)
      = ((openMemeSlots db.schedules).map (·.sid)).take ids.length :=
    map_snd_zip_eq_take _ _
  have hnd_pairs : ((ids.zip ((openMemeSlots db.schedules).map (·.sid))).map Prod.snd).Nodup := by
    rw [hsnd]
    exact hnd_opens.sublist (List.take_sublist _ _)
  have hopen_mem : ∀ r ∈ openMemeSlots db.schedules, r ∈ db.schedules := by
    intro r hr
    exact hfsub.mem (hperm.mem_iff.mp hr)
  constructor
  · intro i hi ho
    have hlenmap : ((openMemeSlots db.schedules).map (·.sid)).length
        = (openMemeSlots db.schedules).length := List.length_map _ _
    have hlen : i < (ids.zip ((openMemeSlots db.schedules).map (·.sid))).length := by
      rw [List.length_zip, hlenmap]
      omega
    have hget : (ids.zip ((openMemeSlots db.schedules).map (·.sid))).get ⟨i, hlen⟩
        = (ids.get ⟨i, hi⟩, ((openMemeSlots db.schedules).get ⟨i, ho⟩).sid) := by
      simp [List.get_eq_getElem, List.getElem_zip]
    have hfind : (ids.zip ((openMemeSlots db.schedules).map (·.sid))).find?
        (fun p => p.2 == ((openMemeSlots db.schedules).get ⟨i, ho⟩).sid)
        = some ((ids.zip ((openMemeSlots db.schedules).map (·.sid))).get ⟨i, hlen⟩) := by
      apply find?_eq_some_of_unique (List.get_mem _ _ hlen)
      · simp [hget]
      · intro q hq hqs
        apply List.inj_on_of_nodup_map hnd_pairs hq (List.get_mem _ _ hlen)
        rw [hget]
        simpa using hqs
    have hup := findSchedule_foldl_update upd hupd
      (ids.zip ((openMemeSlots db.schedules).map (·.sid))) hnd_pairs db.schedules
      ((openMemeSlots db.schedules).get ⟨i, ho⟩).sid
    rw [hfind] at hup
    have hbase : findSchedule db.schedules ((openMemeSlots db.schedules).get ⟨i, ho⟩).sid
        = some ((openMemeSlots db.schedules).get ⟨i, ho⟩) :=
      findSchedule_of_mem hnd (hopen_mem _ (List.get_mem _ _ ho))
    rw [hbase] at hup
    rw [hup, hget]
    rfl
  · intro s hs
    have hnone : (ids.zip ((openMemeSlots db.schedules).map (·.sid))).find?
        (fun p => p.2 == s) = none := by
      rw [List.find?_eq_none]
      intro p hp hps
      apply hs
      rw [← hsnd]
      exact List.mem_map.mpr ⟨p, hp, by simpa using hps⟩
    have hup := findSchedule_foldl_update upd hupd
      (ids.zip ((openMemeSlots db.schedules).map (·.sid))) hnd_pairs db.schedules s
    rw [hnone] at hup
    exact hup

/-- C5: assignment is FIFO in both assignment modes — with distinct
schedule ids, the open-slot list is exactly the still-`queued`, unbound
meme Slots sorted by `scheduled_time` ascending; the `i`-th content id is
bound to the `i`-th such Slot (so exactly `min(len(ids), len(open))`
bindings happen), by `assign_memes_to_open_slots` and equally by the
variant-selecting `assign_memes_with_variants` (which additionally
records the drawn caption variant); every Slot outside the paired prefix
— in particular every surplus open Slot — is left unchanged by either
assigner; and the memes table (so the `ready` status of surplus content)
is untouched by both. -/
theorem C5_assignment_fifo (db : DB) (ids : List Nat)
    (variantPick : Nat → Option Nat)
    (hnd : (db.schedules.map (·.sid)).Nodup) :
    (assign_memes_to_open_slots ids db).memes = db.memes ∧
    (∀ r ∈ openMemeSlots db.schedules,
      r.kind = "meme" ∧ r.status = "queued" ∧ r.meme_id = none) ∧
    List.Sorted schedLE (openMemeSlots db.schedules) ∧
    (∀ i (hi : i < ids.length) (ho : i < (openMemeSlots db.schedules).length),
      findSchedule (assign_memes_to_open_slots ids db).schedules
          ((openMemeSlots db.schedules).get ⟨i, ho⟩).sid
        = some { (openMemeSlots db.schedules).get ⟨i, ho⟩ with
                 meme_id := some (ids.get ⟨i, hi⟩) }) ∧
    (∀ s, s ∉ ((openMemeSlots db.schedules).map (·.sid)).take ids.length →
      findSchedule (assign_memes_to_open_slots ids db).schedules s
        = findSchedule db.schedules s) ∧
    (∀ i (hi : i < ids.length) (ho : i < (openMemeSlots db.schedules).length),
      findSchedule (assign_memes_with_variants variantPick ids db).schedules
          ((openMemeSlots db.schedules).get ⟨i, ho⟩).sid
        = some { (openMemeSlots db.schedules).get ⟨i, ho⟩ with
                 meme_id := some (ids.get ⟨i, hi⟩),
                 caption_variant_no := variantPick (ids.get ⟨i, hi⟩) }) ∧
    (∀ s, s ∉ ((openMemeSlots db.schedules).map (·.sid)).take ids.length →
      findSchedule (assign_memes_with_variants variantPick ids db).schedules s
        = findSchedule db.schedules s) ∧
    (assign_memes_with_variants variantPick ids db).memes = db.memes := by
  have hperm : List.Perm (openMemeSlots db.schedules) (db.schedules.filter (fun r =>
      r.kind == "meme" && r.status == "queued" && r.meme_id == none)) :=
    List.perm_insertionSort _ _
  have hplain := assign_foldl_fifo db ids hnd
    (fun p r => { r with meme_id := some p.1 }) (fun p r => rfl)
  have hvar := assign_foldl_fifo db ids hnd
    (fun p r => { r with meme_id := some p.1, caption_variant_no := variantPick p.1 })
    (fun p r => rfl)
  refine ⟨rfl, ?_, List.sorted_insertionSort schedLE _, ?_, ?_, ?_, ?_, rfl⟩
  · intro r hr
    have h2 := List.mem_filter.mp (hperm.mem_iff.mp hr)
    have h3 := h2.2
    simp only [Bool.and_eq_true, beq_iff_eq] at h3
    exact ⟨h3.1.1, h3.1.2, h3.2⟩
  · intro i hi ho
    exact hplain.1 i hi ho
  · intro s hs
    exact hplain.2 s hs
  · intro i hi ho
    exact hvar.1 i hi ho
  · intro s hs
    exact hvar.2 s hs

/-- Witness for C5: on the concrete store, content ids `[101, 102, 103]`
land on the Slots in `scheduled_time` order — Slot 1 (t=10) gets 101,
Slot 2 (t=20) gets 102, Slot 3 (t=30) gets 103 — the already-bound Slot 4
keeps its binding, and the variant-selecting assigner produces the same
pairing while also recording the drawn variant (2 for meme 101, none for
the others). -/
theorem C5_witness :
    (findSchedule (assign_memes_to_open_slots [101, 102, 103] fifoDB).schedules
        ((openMemeSlots fifoDB.schedules).get ⟨0, by decide⟩).sid
      = some { (openMemeSlots fifoDB.schedules).get ⟨0, by decide⟩ with
               meme_id := some ([101, 102, 103].get ⟨0, by decide⟩) }) ∧
    ((assign_memes_to_open_slots [101, 102, 103] fifoDB).schedules.map
        (fun r => (r.sid, r.meme_id))
      = [(2, some 102), (1, some 101), (3, some 103), (4, some 9)]) ∧
    (findSchedule (assign_memes_with_variants
          (fun m => if m = 101 then some 2 else none) [101, 102, 103] fifoDB).schedules
        ((openMemeSlots fifoDB.schedules).get ⟨0, by decide⟩).sid
      = some { (openMemeSlots fifoDB.schedules).get ⟨0, by decide⟩ with
               meme_id := some ([101, 102, 103].get ⟨0, by decide⟩),
               caption_variant_no := (fun m => if m = 101 then some 2 else none)
                 ([101, 102, 103].get ⟨0, by decide⟩) }) ∧
    ((assign_memes_with_variants
          (fun m => if m = 101 then some 2 else none) [101, 102, 103] fifoDB).schedules.map
        (fun r => (r.sid, r.meme_id, r.caption_variant_no))
      = [(2, some 102, none), (1, some 101, some 2), (3, some 103, none),
         (4, some 9, none)]) :=
  ⟨(C5_assignment_fifo fifoDB [101, 102, 103]
      (fun m => if m = 101 then some 2 else none) (by decide)).2.2.2.1
      0 (by decide) (by decide),
   by decide,
   (C5_assignment_fifo fifoDB [101, 102, 103]
      (fun m => if m = 101 then some 2 else none) (by decide)).2.2.2.2.2.1
      0 (by decide) (by decide),
   by decide⟩

/-- C6 counterexample: the claim says the persisted `planned_time` is
always the un-jittered target instant in UTC, in every planning mode. Run
`plan_day` for one meme slot with the acceptance coin always true and a
jitter draw of +15 minutes (within the J = 15 magnitude): the candidate
target is minute 0 of the day, whose UTC instant is `to_utc 0 = -330`,
but the persisted row carries `planned_time = scheduled_time = -315` —
the JITTERED instant, not the un-jittered one. -/
theorem C6_counterexample :
    (plan_day (fun _ => true) (fun _ => true) (fun _ => 15) (fun _ => 0) 1 0).map
        (fun r => (r.planned_time_utc, r.scheduled_time_utc))
      = [((-315 : Int), (-315 : Int))] ∧
    to_utc 0 = -330 ∧ ((-315 : Int) ≠ -330) := by
  refine ⟨by decide, by decide, by decide⟩

/-- C6 (amended): in fixed-window weekly planning and plan import,
`planned_time` is the un-jittered target instant in UTC, the recorded
`jitter_sec` is exactly the scheduled-minus-planned gap, and for jitter
magnitude J every `scheduled_time` differs from `planned_time` by at most
J minutes. In weighted-random daily planning (`plan_day`), however, the
persisted `planned_time` EQUALS the jittered `scheduled_time` (so the
scheduled-vs-planned gap is 0 ≤ J, but the un-jittered instant is not
recorded). -/
theorem C6_jitter_bound :
    (∀ (accM accS : Nat → Bool) (jM jS : Nat → Int) (cm cs : Nat),
      ∀ r ∈ plan_day accM accS jM jS cm cs,
        r.planned_time_utc = r.scheduled_time_utc) ∧
    (∀ (jm js : Nat → Nat → Int) (Jm Js : Int) (days : Nat),
      (∀ d i, |jm d i| ≤ Jm) → (∀ d i, |js d i| ≤ Js) →
      ∀ r ∈ plan_week jm js days,
        |r.scheduled_time_utc - r.planned_time_utc|
            ≤ (if r.kind = "meme" then Jm else Js) ∧
        r.jitter_sec = (r.scheduled_time_utc - r.planned_time_utc) * 60) ∧
    (∀ (jitM jitS jitR : Nat → Int) (Jm Js Jr : Int) (entries : List PlanEntry),
      (∀ i, |jitM i| ≤ Jm) → (∀ i, |jitS i| ≤ Js) → (∀ i, |jitR i| ≤ Jr) →
      ∀ r ∈ ingest_week_plan jitM jitS jitR entries,
        |r.scheduled_time_utc - r.planned_time_utc|
            ≤ (if r.kind = "story" then Js else if r.kind = "reel" then Jr else Jm) ∧
        r.jitter_sec = (r.scheduled_time_utc - r.planned_time_utc) * 60) := by
  refine ⟨?_, ?_, ?_⟩
  · intro accM accS jM jS cm cs r hr
    rcases List.mem_append.mp hr with h | h <;>
      · rcases List.mem_map.mp h with ⟨s, hs, rfl⟩
        rfl
  · intro jm js Jm Js days hjm hjs r hr
    rcases List.mem_flatten.mp hr with ⟨block, hblock, hrb⟩
    rcases List.mem_map.mp hblock with ⟨d, hd, rfl⟩
    rcases List.mem_append.mp hrb with h | h <;>
      rcases List.mem_map.mp h with ⟨p, hp, rfl⟩
    · constructor
      · simp only [plannedRow, to_utc, if_pos rfl]
        have : (Int.ofNat d * 1440 + p.2 + jm d p.1 - 330)
            - (Int.ofNat d * 1440 + p.2 - 330) = jm d p.1 := by ring
        rw [this]
        exact hjm d p.1
      · simp only [plannedRow, to_utc]
        ring
    · constructor
      · simp only [plannedRow, to_utc, if_neg (by decide : ¬("story" = "meme"))]
        have : (Int.ofNat d * 1440 + p.2 + js d p.1 - 330)
            - (Int.ofNat d * 1440 + p.2 - 330) = js d p.1 := by ring
        rw [this]
        exact hjs d p.1
      · simp only [plannedRow, to_utc]
        ring
  · intro jitM jitS jitR Jm Js Jr entries hm hs hr2 r hr
    rcases List.mem_map.mp hr with ⟨p, hp, rfl⟩
    constructor
    · simp only [plannedRow, to_utc]
      have hgap : (p.2.date_day * 1440 + p.2.hh * 60 + p.2.mm +
            (if p.2.kind = "story" then jitS p.1
             else if p.2.kind = "reel" then jitR p.1 else jitM p.1) - 330)
          - (p.2.date_day * 1440 + p.2.hh * 60 + p.2.mm - 330)
          = (if p.2.kind = "story" then jitS p.1
             else if p.2.kind = "reel" then jitR p.1 else jitM p.1) := by ring
      rw [hgap]
      by_cases h1 : p.2.kind = "story"
      · rw [if_pos h1, if_pos h1]
        exact hs p.1
      · rw [if_neg h1, if_neg h1]
        by_cases h2 : p.2.kind = "reel"
        · rw [if_pos h2, if_pos h2]
          exact hr2 p.1
        · rw [if_neg h2, if_neg h2]
          exact hm p.1
    · simp only [plannedRow, to_utc]
      ring

/-- Witness for C6: one day of `plan_week` with constant draws +7 for
memes and -3 for stories satisfies the bound for Jm = 15, Js = 7, and one
ingested meme entry with draw -10 satisfies it for Jm = 15. -/
theorem C6_witness :
    (∀ r ∈ plan_week (fun _ _ => 7) (fun _ _ => -3) 1,
      |r.scheduled_time_utc - r.planned_time_utc|
          ≤ (if r.kind = "meme" then (15 : Int) else 7)) ∧
    (∀ r ∈ ingest_week_plan (fun _ => -10) (fun _ => 0) (fun _ => 0)
        [{ date_day := 3, hh := 12, mm := 30, kind := "meme" }],
      |r.scheduled_time_utc - r.planned_time_utc|
          ≤ (if r.kind = "story" then (7 : Int) else if r.kind = "reel" then 12 else 15)) := by
  constructor
  · intro r hr
    exact ((C6_jitter_bound.2.1 (fun _ _ => 7) (fun _ _ => -3) 15 7 1
      (fun _ _ => by show |(7 : Int)| ≤ 15; decide)
      (fun _ _ => by show |(-3 : Int)| ≤ 7; decide)) r hr).1
  · intro r hr
    exact ((C6_jitter_bound.2.2 (fun _ => -10) (fun _ => 0) (fun _ => 0) 15 7 12
      [{ date_day := 3, hh := 12, mm := 30, kind := "meme" }]
      (fun _ => by show |(-10 : Int)| ≤ 15; decide)
      (fun _ => by show |(0 : Int)| ≤ 7; decide)
      (fun _ => by show |(0 : Int)| ≤ 12; decide)) r hr).1

theorem postsFor_mark_posted (db : DB) (sid t : Nat) (now : Int) (pid : String) :
    postsFor (mark_schedule_posted db sid now pid) t
      = if sid = t then postsFor db t ++ [postedAudit sid now pid]
        else postsFor db t := by
  by_cases h : sid = t <;>
    simp [postsFor, mark_schedule_posted, List.filter_append, postedAudit, h]

theorem postsFor_mark_failed (db : DB) (sid t : Nat) (e : String) :
    postsFor (mark_schedule_failed db sid e) t
      = if sid = t then postsFor db t ++ [failedAudit sid e]
        else postsFor db t := by
  by_cases h : sid = t <;>
    simp [postsFor, mark_schedule_failed, List.filter_append, failedAudit, h]

theorem frame_processOne (pub : Publisher) (now : Int) (db : DB) (r : Schedule)
    (t : Nat) (h : r.sid ≠ t) :
    findSchedule (processOne pub now db r).schedules t = findSchedule db.schedules t ∧
    postsFor (processOne pub now db r) t = postsFor db t := by
  unfold processOne
  cases attemptSchedule pub db r with
  | none => exact ⟨rfl, rfl⟩
  | some out =>
    cases out with
    | ok pid =>
      constructor
      · have hk := findSchedule_update_key
          (fun r2 => { r2 with status := "posted", error := none })
          (fun _ => rfl) db.schedules r.sid t
        rw [if_neg h] at hk
        exact hk
      · rw [postsFor_mark_posted, if_neg h]
    | error e =>
      constructor
      · have hk := findSchedule_update_key
          (fun r2 => { r2 with status := "failed", error := some e })
          (fun _ => rfl) db.schedules r.sid t
        rw [if_neg h] at hk
        exact hk
      · rw [postsFor_mark_failed, if_neg h]

theorem readonly_processOne (pub : Publisher) (now : Int) (db : DB) (r : Schedule) :
    (processOne pub now db r).memes = db.memes ∧
    (processOne pub now db r).captions = db.captions ∧
    (processOne pub now db r).carousels = db.carousels ∧
    (processOne pub now db r).carousel_items = db.carousel_items ∧
    (processOne pub now db r).hashtag_pools = db.hashtag_pools := by
  unfold processOne
  cases attemptSchedule pub db r with
  | none => exact ⟨rfl, rfl, rfl, rfl, rfl⟩
  | some out => cases out <;> exact ⟨rfl, rfl, rfl, rfl, rfl⟩

theorem attempt_congr (pub : Publisher) (db db2 : DB) (r : Schedule)
    (h1 : db2.memes = db.memes) (h2 : db2.captions = db.captions)
    (h3 : db2.carousels = db.carousels) (h4 : db2.carousel_items = db.carousel_items)
    (h5 : db2.hashtag_pools = db.hashtag_pools) :
    attemptSchedule pub db2 r = attemptSchedule pub db r := by
  unfold attemptSchedule
  rw [h1, h2, h3, h4, h5]

theorem frame_fold (pub : Publisher) (now : Int) (rows : List Schedule)
    (db : DB) (t : Nat) (h : t ∉ rows.map (·.sid)) :
    findSchedule (rows.foldl (processOne pub now) db).schedules t
      = findSchedule db.schedules t ∧
    postsFor (rows.foldl (processOne pub now) db) t = postsFor db t := by
  induction rows generalizing db with
  | nil => exact ⟨rfl, rfl⟩
  | cons r rest ih =>
    rw [List.foldl_cons]
    have hne : r.sid ≠ t := by
      intro hc
      apply h
      rw [List.map_cons, ← hc]
      exact List.mem_cons_self _ _
    have h2 : t ∉ rest.map (·.sid) := by
      intro hc
      apply h
      rw [List.map_cons]
      exact List.mem_cons_of_mem _ hc
    have hstep := frame_processOne pub now db r t hne
    have hrest := ih (processOne pub now db r) h2
    exact ⟨hrest.1.trans hstep.1, hrest.2.trans hstep.2⟩

/-- The per-Slot outcome of a dispatch pass over a fetched row list with
distinct ids: a skipped row (final `else`) is untouched; otherwise the row
ends `posted` or `failed` according to its attempted outcome, with exactly
the matching audit row appended. -/
theorem dispatch_fold_outcome (pub : Publisher) (now : Int)
    (rows : List Schedule) (db : DB) (s : Schedule)
    (hmem : s ∈ rows) (hnd : (rows.map (·.sid)).Nodup) :
    (attemptSchedule pub db s = none ∧
      findSchedule (rows.foldl (processOne pub now) db).schedules s.sid
        = findSchedule db.schedules s.sid ∧
      postsFor (rows.foldl (processOne pub now) db) s.sid = postsFor db s.sid) ∨
    (∃ pid, attemptSchedule pub db s = some (.ok pid) ∧
      findSchedule (rows.foldl (processOne pub now) db).schedules s.sid
        = (findSchedule db.schedules s.sid).map
            (fun r => { r with status := "posted", error := none }) ∧
      postsFor (rows.foldl (processOne pub now) db) s.sid
        = postsFor db s.sid ++ [postedAudit s.sid now pid]) ∨
    (∃ e, attemptSchedule pub db s = some (.error e) ∧
      findSchedule (rows.foldl (processOne pub now) db).schedules s.sid
        = (findSchedule db.schedules s.sid).map
            (fun r => { r with status := "failed", error := some e }) ∧
      postsFor (rows.foldl (processOne pub now) db) s.sid
        = postsFor db s.sid ++ [failedAudit s.sid e]) := by
  revert hnd
  induction hmem generalizing db with
  | head rest =>
    intro hnd
    rw [List.map_cons] at hnd
    have hcons := List.nodup_cons.mp hnd
    rw [List.foldl_cons]
    have hframe := frame_fold pub now rest (processOne pub now db s) s.sid hcons.1
    cases hatt : attemptSchedule pub db s with
    | none =>
      left
      have hdb1 : processOne pub now db s = db := by
        unfold processOne
        rw [hatt]
      rw [hdb1] at hframe ⊢
      exact ⟨rfl, hframe.1, hframe.2⟩
    | some out =>
      cases out with
      | ok pid =>
        right; left
        have hdb1 : processOne pub now db s = mark_schedule_posted db s.sid now pid := by
          unfold processOne
          rw [hatt]
        rw [hdb1] at hframe ⊢
        refine ⟨pid, rfl, ?_, ?_⟩
        · rw [hframe.1]
          have hk := findSchedule_update_key
            (fun r2 => { r2 with status := "posted", error := none })
            (fun _ => rfl) db.schedules s.sid s.sid
          rw [if_pos rfl] at hk
          exact hk
        · rw [hframe.2, postsFor_mark_posted, if_pos rfl]
      | error e =>
        right; right
        have hdb1 : processOne pub now db s = mark_schedule_failed db s.sid e := by
          unfold processOne
          rw [hatt]
        rw [hdb1] at hframe ⊢
        refine ⟨e, rfl, ?_, ?_⟩
        · rw [hframe.1]
          have hk := findSchedule_update_key
            (fun r2 => { r2 with status := "failed", error := some e })
            (fun _ => rfl) db.schedules s.sid s.sid
          rw [if_pos rfl] at hk
          exact hk
        · rw [hframe.2, postsFor_mark_failed, if_pos rfl]
  | tail r hmem2 ih =>
    intro hnd
    rw [List.map_cons] at hnd
    have hcons := List.nodup_cons.mp hnd
    rw [List.foldl_cons]
    have hne : r.sid ≠ s.sid := by
      intro hc
      apply hcons.1
      rw [hc]
      exact List.mem_map.mpr ⟨s, hmem2, rfl⟩
    have hro := readonly_processOne pub now db r
    have hac : attemptSchedule pub (processOne pub now db r) s
        = attemptSchedule pub db s :=
      attempt_congr pub db _ s hro.1 hro.2.1 hro.2.2.1 hro.2.2.2.1 hro.2.2.2.2
    have hfr := frame_processOne pub now db r s.sid hne
    have hih := ih (processOne pub now db r) hcons.2
    rw [hac, hfr.1, hfr.2] at hih
    exact hih

theorem fetch_mem_schedules (db : DB) (now : Int) (limit : Option Nat)
    (s : Schedule) (hmem : s ∈ fetch_due_schedules db now none limit) :
    s ∈ db.schedules ∧ s.status = "queued" ∧ s.scheduled_time_utc ≤ now := by
  unfold fetch_due_schedules at hmem
  have hsort : s ∈ List.insertionSort schedLE (db.schedules.filter (dueFilter now none)) := by
    cases limit with
    | none => exact hmem
    | some l =>
      have hmem2 : s ∈ (if l ≠ 0 then
          (List.insertionSort schedLE (db.schedules.filter (dueFilter now none))).take l
        else List.insertionSort schedLE (db.schedules.filter (dueFilter now none))) := hmem
      by_cases hl : l ≠ 0
      · rw [if_pos hl] at hmem2
        exact List.mem_of_mem_take hmem2
      · rw [if_neg hl] at hmem2
        exact hmem2
  have hfil := (List.perm_insertionSort schedLE _).mem_iff.mp hsort
  have h2 := List.mem_filter.mp hfil
  have h3 := h2.2
  simp only [dueFilter, Bool.and_eq_true, beq_iff_eq, decide_eq_true_eq,
    Bool.and_true] at h3
  exact ⟨h2.1, h3.1, h3.2⟩

theorem fetch_nodup (db : DB) (now : Int) (kind : Option String)
    (limit : Option Nat) (hnd : (db.schedules.map (·.sid)).Nodup) :
    ((fetch_due_schedules db now kind limit).map (·.sid)).Nodup := by
  unfold fetch_due_schedules
  have hfil : ((db.schedules.filter (dueFilter now kind)).map (·.sid)).Nodup :=
    hnd.sublist ((List.filter_sublist _).map _)
  have hsorted : ((List.insertionSort schedLE
      (db.schedules.filter (dueFilter now kind))).map (·.sid)).Nodup :=
    (((List.perm_insertionSort schedLE _).map (·.sid)).nodup_iff).mpr hfil
  cases limit with
  | none => exact hsorted
  | some l =>
    show ((if l ≠ 0 then
        (List.insertionSort schedLE (db.schedules.filter (dueFilter now kind))).take l
      else List.insertionSort schedLE
        (db.schedules.filter (dueFilter now kind))).map (·.sid)).Nodup
    by_cases hl : l ≠ 0
    · rw [if_pos hl]
      exact hsorted.sublist ((List.take_sublist _ _).map _)
    · rw [if_neg hl]
      exact hsorted

theorem attempt_isSome_of_knownKindBound (pub : Publisher) (db : DB)
    (r : Schedule) (h : knownKindBound r) :
    ∃ out, attemptSchedule pub db r = some out := by
  unfold attemptSchedule
  rcases h with ⟨hk, hb⟩ | hk | ⟨hk, hb⟩ | ⟨hk, hb⟩
  · rw [if_pos (by simp [hk, hb])]
    exact ⟨_, rfl⟩
  · rw [if_neg (by simp [hk]), if_pos (by simp [hk])]
    exact ⟨_, rfl⟩
  · rw [if_neg (by simp [hk]), if_neg (by simp [hk]), if_pos (by simp [hk, hb])]
    exact ⟨_, rfl⟩
  · rw [if_neg (by simp [hk]), if_neg (by simp [hk]), if_neg (by simp [hk]),
      if_pos (by simp [hk, hb])]
    exact ⟨_, rfl⟩

/-- C1 (amended): every due, queued Slot selected by a dispatch pass whose
kind the dispatcher knows (`meme`/`story`/`carousel`/`reel`) with that
branch's content reference bound ends the pass in exactly one terminal
state: `posted` with a Post row carrying a platform id, or `failed` with a
Post row carrying the error — never still `queued`; a bound reference that
cannot be resolved is one of the failure cases. A selected Slot with an
UNKNOWN kind, however, is only skipped (the final `else` prints and moves
on), so it stays `queued` — the claim's "unknown kind is treated as a
failure of that Slot" does not hold (see the counterexample). -/
theorem C1_dispatch_terminality (pub : Publisher) (now : Int)
    (limit : Option Nat) (db : DB) (s : Schedule)
    (hnd : (db.schedules.map (·.sid)).Nodup)
    (hmem : s ∈ fetch_due_schedules db now none limit)
    (hkb : knownKindBound s) :
    (∃ pid, findSchedule (cmd_post_due_all pub now limit db).schedules s.sid
        = some { s with status := "posted", error := none } ∧
      postsFor (cmd_post_due_all pub now limit db) s.sid
        = postsFor db s.sid ++ [postedAudit s.sid now pid]) ∨
    (∃ e, findSchedule (cmd_post_due_all pub now limit db).schedules s.sid
        = some { s with status := "failed", error := some e } ∧
      postsFor (cmd_post_due_all pub now limit db) s.sid
        = postsFor db s.sid ++ [failedAudit s.sid e]) := by
  have hf := fetch_nodup db now none limit hnd
  have hms := fetch_mem_schedules db now limit s hmem
  have hbase : findSchedule db.schedules s.sid = some s :=
    findSchedule_of_mem hnd hms.1
  have hout := dispatch_fold_outcome pub now (fetch_due_schedules db now none limit)
    db s hmem hf
  rcases hout with ⟨hnone, _, _⟩ | ⟨pid, hatt, h1, h2⟩ | ⟨e, hatt, h1, h2⟩
  · rcases attempt_isSome_of_knownKindBound pub db s hkb with ⟨out, hsome⟩
    rw [hsome] at hnone
    cases hnone
  · left
    refine ⟨pid, ?_, h2⟩
    rw [show cmd_post_due_all pub now limit db
        = (fetch_due_schedules db now none limit).foldl (processOne pub now) db
      from rfl, h1, hbase]
    rfl
  · right
    refine ⟨e, ?_, h2⟩
    rw [show cmd_post_due_all pub now limit db
        = (fetch_due_schedules db now none limit).foldl (processOne pub now) db
      from rfl, h1, hbase]
    rfl

/-- C8: publish failures are isolated per Slot. For ANY Publisher — in
particular one that raises on the k-th selected Slot — every selected due
Slot the dispatcher handles (known kind, reference bound) still reaches
its own terminal state in the same pass, with exactly one new Post row;
no per-item error propagates out of the loop (the pass function is total
and processes the whole fetched list). -/
theorem C8_failure_isolation (pub : Publisher) (now : Int)
    (limit : Option Nat) (db : DB)
    (hnd : (db.schedules.map (·.sid)).Nodup)
    (hall : ∀ r ∈ fetch_due_schedules db now none limit, knownKindBound r) :
    ∀ s ∈ fetch_due_schedules db now none limit,
      (findSchedule (cmd_post_due_all pub now limit db).schedules s.sid
          = some { s with status := "posted", error := none } ∨
        ∃ e, findSchedule (cmd_post_due_all pub now limit db).schedules s.sid
          = some { s with status := "failed", error := some e }) ∧
      (postsFor (cmd_post_due_all pub now limit db) s.sid).length
          = (postsFor db s.sid).length + 1 := by
  intro s hmem
  have hf := fetch_nodup db now none limit hnd
  have hms := fetch_mem_schedules db now limit s hmem
  have hbase : findSchedule db.schedules s.sid = some s :=
    findSchedule_of_mem hnd hms.1
  have hout := dispatch_fold_outcome pub now (fetch_due_schedules db now none limit)
    db s hmem hf
  rcases hout with ⟨hnone, _, _⟩ | ⟨pid, hatt, h1, h2⟩ | ⟨e, hatt, h1, h2⟩
  · rcases attempt_isSome_of_knownKindBound pub db s (hall s hmem) with ⟨out, hsome⟩
    rw [hsome] at hnone
    cases hnone
  · constructor
    · left
      rw [show cmd_post_due_all pub now limit db
          = (fetch_due_schedules db now none limit).foldl (processOne pub now) db
        from rfl, h1, hbase]
      rfl
    · rw [show cmd_post_due_all pub now limit db
          = (fetch_due_schedules db now none limit).foldl (processOne pub now) db
        from rfl, h2]
      simp
  · constructor
    · right
      refine ⟨e, ?_⟩
      rw [show cmd_post_due_all pub now limit db
          = (fetch_due_schedules db now none limit).foldl (processOne pub now) db
        from rfl, h1, hbase]
      rfl
    · rw [show cmd_post_due_all pub now limit db
          = (fetch_due_schedules db now none limit).foldl (processOne pub now) db
        from rfl, h2]
      simp

/-- C10: a due story Slot selected by a pass is marked `posted` with a
Post row whose platform id is the EMPTY string, whether or not a story
payload is bound; the story branch never touches the Publisher (its
per-row step is identical under any two Publishers); and the client's
`create_story_container` / `post_story` unconditionally raise
`NotImplementedError`, so story publishing is never reached from
dispatch. -/
theorem C10_story_placeholder (pub pub2 : Publisher) (now : Int)
    (limit : Option Nat) (db : DB) (s : Schedule)
    (hnd : (db.schedules.map (·.sid)).Nodup)
    (hmem : s ∈ fetch_due_schedules db now none limit)
    (hstory : s.kind = "story") :
    (findSchedule (cmd_post_due_all pub now limit db).schedules s.sid
        = some { s with status := "posted", error := none }) ∧
    (postsFor (cmd_post_due_all pub now limit db) s.sid
        = postsFor db s.sid ++ [postedAudit s.sid now ""]) ∧
    (∀ (db2 : DB) (r2 : Schedule), r2.kind = "story" →
      processOne pub now db2 r2 = processOne pub2 now db2 r2) ∧
    (∀ i c, ∃ e, create_story_container i c = .error e) ∧
    (∀ i c, ∃ e, post_story i c = .error e) := by
  have hf := fetch_nodup db now none limit hnd
  have hms := fetch_mem_schedules db now limit s hmem
  have hbase : findSchedule db.schedules s.sid = some s :=
    findSchedule_of_mem hnd hms.1
  have hstorybranch : ∀ (pb : Publisher) (db2 : DB) (r2 : Schedule), r2.kind = "story" →
      attemptSchedule pb db2 r2 = some (.ok "") := by
    intro pb db2 r2 h2
    unfold attemptSchedule
    rw [if_neg (by simp [h2]), if_pos (by simp [h2])]
  have hatt := hstorybranch pub db s hstory
  have hout := dispatch_fold_outcome pub now (fetch_due_schedules db now none limit)
    db s hmem hf
  rcases hout with ⟨hnone, _, _⟩ | ⟨pid, hatt2, h1, h2⟩ | ⟨e, hatt2, h1, h2⟩
  · rw [hatt] at hnone
    cases hnone
  · rw [hatt] at hatt2
    have hpid : pid = "" := by
      cases hatt2
      rfl
    subst hpid
    refine ⟨?_, ?_, ?_, ?_, ?_⟩
    · rw [show cmd_post_due_all pub now limit db
          = (fetch_due_schedules db now none limit).foldl (processOne pub now) db
        from rfl, h1, hbase]
      rfl
    · rw [show cmd_post_due_all pub now limit db
          = (fetch_due_schedules db now none limit).foldl (processOne pub now) db
        from rfl, h2]
    · intro db2 r2 h2r
      unfold processOne
      rw [hstorybranch pub db2 r2 h2r, hstorybranch pub2 db2 r2 h2r]
    · intro i c
      exact ⟨_, rfl⟩
    · intro i c
      exact ⟨_, rfl⟩
  · rw [hatt] at hatt2
    cases hatt2

/-- C1 counterexample: the claim says a due, bound Slot selected by a pass
never remains `queued`, an unknown kind being treated as a failure of that
Slot. But the bound Slot of kind "banana" IS selected by the pass
(`fetch_due_schedules` has no kind restriction), falls into the final
`else` branch which only prints "skipping", and afterwards is still
`queued` with no Post row — neither `posted` nor `failed`. -/
theorem C1_counterexample :
    bananaSlot ∈ fetch_due_schedules unknownKindDB 100 none none ∧
    optTruthy bananaSlot.meme_id = true ∧
    ((cmd_post_due_all witnessPub 100 none unknownKindDB).schedules.map
        (fun r => (r.sid, r.status))
      = [(1, "queued")]) ∧
    (cmd_post_due_all witnessPub 100 none unknownKindDB).posts = [] := by
  refine ⟨by decide, by decide, by decide, by decide⟩

/-- Witness for C1 (amended) at a concrete input: the first due bound meme
Slot of `fiveDB` ends the pass in exactly one of the two terminal states
with its audit row. -/
theorem C1_witness :
    (∃ pid, findSchedule (cmd_post_due_all witnessPub 100 none fiveDB).schedules 1
        = some { fiveSlot1 with status := "posted", error := none } ∧
      postsFor (cmd_post_due_all witnessPub 100 none fiveDB) 1
        = postsFor fiveDB 1 ++ [postedAudit 1 100 pid]) ∨
    (∃ e, findSchedule (cmd_post_due_all witnessPub 100 none fiveDB).schedules 1
        = some { fiveSlot1 with status := "failed", error := some e } ∧
      postsFor (cmd_post_due_all witnessPub 100 none fiveDB) 1
        = postsFor fiveDB 1 ++ [failedAudit 1 e]) :=
  C1_dispatch_terminality witnessPub 100 none fiveDB fiveSlot1
    (by decide) (by decide) (by decide)

/-- Witness for C8 at the spec's own scenario: the Publisher raises on
item 2 of the 5 due Slots in one pass; items 1, 3, 4, 5 still reach
`posted` and item 2 reaches `failed` — all terminal, in the same pass —
and the general isolation theorem applies to every selected Slot. -/
theorem C8_witness :
    ((cmd_post_due_all witnessPub 100 none fiveDB).schedules.map
        (fun r => (r.sid, r.status))
      = [(1, "posted"), (2, "failed"), (3, "posted"), (4, "posted"), (5, "posted")]) ∧
    (∀ s ∈ fetch_due_schedules fiveDB 100 none none,
      (findSchedule (cmd_post_due_all witnessPub 100 none fiveDB).schedules s.sid
          = some { s with status := "posted", error := none } ∨
        ∃ e, findSchedule (cmd_post_due_all witnessPub 100 none fiveDB).schedules s.sid
          = some { s with status := "failed", error := some e }) ∧
      (postsFor (cmd_post_due_all witnessPub 100 none fiveDB) s.sid).length
          = (postsFor fiveDB s.sid).length + 1) :=
  ⟨by decide,
   C8_failure_isolation witnessPub 100 none fiveDB (by decide) (by decide)⟩

/-- Witness for C10 at a concrete input: the unbound due story Slot is
marked `posted` with the empty platform id (under a Publisher whose every
endpoint raises — no Publisher capability is consulted), and the client's
story operations always raise. -/
theorem C10_witness :
    (findSchedule (cmd_post_due_all failPub 50 none storyDB).schedules 7
        = some { storySlot with status := "posted", error := none }) ∧
    (postsFor (cmd_post_due_all failPub 50 none storyDB) 7
        = postsFor storyDB 7 ++ [postedAudit 7 50 ""]) ∧
    (∀ (db2 : DB) (r2 : Schedule), r2.kind = "story" →
      processOne failPub 50 db2 r2 = processOne witnessPub 50 db2 r2) ∧
    (∀ i c, ∃ e, create_story_container i c = .error e) ∧
    (∀ i c, ∃ e, post_story i c = .error e) :=
  C10_story_placeholder failPub witnessPub 50 none storyDB storySlot
    (by decide) (by decide) (by decide)

end IGBot
